import Mathlib

/-!
Verification model of `file_processor.py`.

The file-processing pipeline is embedded shallowly:

* A filesystem path is an `FPath` (directory, stem, suffix); the Python
  `Path.with_suffix` replaces the suffix and `Path.name` is stem + suffix.
* The filesystem is an association list from paths to entries; an entry is
  either a plain text file or a metadata record (the JSON document the code
  writes, modelled structurally).
* Wall-clock timestamps (`datetime.now().isoformat()`) are modelled by a
  monotone counter `clock` threaded through the state.
* Fallible I/O (touch, metadata create, read, write, mkdir, the two renames,
  unlink) is driven by an `Oracle` of success bits plus the exception text
  `str(e)` observed by the catch-all handler; `_read_file` returning `None`
  and `_write_file` returning `False` on error are modelled directly.
* The state also records, for the one task being processed, the sequence of
  statuses successfully written to its metadata record (`trace`) and the log
  of successful plain-file writes (`writes`); these instrument the run for
  the stated properties and are not read by the embedded code itself.
-/

structure FPath where
  dir : String
  stem : String
  suffix : String
deriving DecidableEq, Repr

def FPath.withSuffix (p : FPath) (s : String) : FPath :=
  ⟨p.dir, p.stem, s⟩

def FPath.name (p : FPath) : String :=
  p.stem ++ p.suffix

namespace Config

def INPUT_DIR : String := "input"

def PROCESSED_DIR : String := "processed"

def FILE_EXTENSION : String := ".txt"

def MAX_CONCURRENT_PROCESSES : Nat := 5

end Config

/-- Destination of `processed_dir / path.name` in `_move_to_processed`. -/
def outPath (p : FPath) : FPath :=
  ⟨Config.PROCESSED_DIR, p.stem, p.suffix⟩

structure MetaData where
  status : String
  last_updated : Nat
  original_filename : String
  error_message : Option String
deriving DecidableEq, Repr

inductive Entry where
  | plain (content : String)
  | meta (m : MetaData)
deriving DecidableEq, Repr

abbrev FS := List (FPath × Entry)

def fsGet : FS → FPath → Option Entry
  | [], _ => none
  | (q, e) :: rest, p => if p = q then some e else fsGet rest p

def fsErase : FS → FPath → FS
  | [], _ => []
  | (q, e) :: rest, p => if q = p then fsErase rest p else (q, e) :: fsErase rest p

def fsSet (fs : FS) (p : FPath) (e : Entry) : FS :=
  (p, e) :: fsErase fs p

structure St where
  fs : FS
  clock : Nat
  trace : List String
  writes : List (FPath × String)
deriving DecidableEq, Repr

/-- Success bits for each fallible operation of one `process_file` run — one
bit per call site, including one per `_update_meta_file` call (its rewrite of
the record can itself fail) — and the text of the exception seen by the
catch-all handler when one is raised. -/
structure Oracle where
  touchOk : Bool
  createOk : Bool
  readOk : Bool
  writeOk : Bool
  mkdirOk : Bool
  renameOrigOk : Bool
  renameProcOk : Bool
  unlinkOk : Bool
  updFailedCreateOk : Bool
  updFailedReadOk : Bool
  updFailedWriteOk : Bool
  updCompletedOk : Bool
  updFailedMoveOk : Bool
  errText : String

/-- Model of the Python `str.upper` method as used on the file content: uppercase
each character (`Char.toUpper`, the ASCII case fold). Defined through the
character list so that it evaluates by kernel reduction. -/
def pyUpper (s : String) : String :=
  ⟨s.data.map Char.toUpper⟩

/-- Python truthiness of the `error_message` argument: `None` and the empty
string are falsy, so `if error_message:` skips the assignment for both. -/
def truthyMsg : Option String → Option String
  | some e => if e = "" then none else some e
  | none => none

/-- Model of module-level `_touch`: `Path(path).touch(exist_ok=True)` creates
an empty file when none exists; the result carries the raised exception text
when the oracle makes the call fail. -/
def _touch (ok : Bool) (err : String) (st : St) (p : FPath) : Option String × St :=
  if ok then
    match fsGet st.fs p with
    | some _ => (none, st)
    | none => (none, { st with fs := fsSet st.fs p (.plain "") })
  else (some err, st)

namespace FileProcessor

/-- Model of `FileProcessor._create_meta_file`: builds the record and writes
it by opening `meta_path` in write mode, overwriting whatever was at `meta_path`;
raises (oracle bit false) only when the underlying write fails. -/
def _create_meta_file (ok : Bool) (err : String) (st : St) (meta_path : FPath)
    (original_filename : String) (status : String) (error_message : Option String) :
    Option String × St :=
  if ok then
    let m : MetaData := ⟨status, st.clock, original_filename, truthyMsg error_message⟩
    (none, { st with fs := fsSet st.fs meta_path (.meta m),
                     clock := st.clock + 1,
                     trace := st.trace ++ [status] })
  else (some err, st)

/-- Model of `FileProcessor._update_meta_file`: reads the existing record,
merges status / timestamp / error, rewrites it. The whole method body is
wrapped in try/except, so every failure is caught and logged, leaving the
pipeline state unchanged: the initial read raises when the record is missing
or not a readable record, and the rewrite itself (`ok` false) can raise, in
which case the new status is silently never written (the record keeps its old
content; as with create, a torn write is idealized to no write). -/
def _update_meta_file (ok : Bool) (st : St) (meta_path : FPath) (status : String)
    (error_message : Option String) : St :=
  match fsGet st.fs meta_path with
  | some (.meta m) =>
      if ok then
        let m2 : MetaData :=
          ⟨status, st.clock, m.original_filename,
            match truthyMsg error_message with
            | some e => some e
            | none => m.error_message⟩
        { st with fs := fsSet st.fs meta_path (.meta m2),
                  clock := st.clock + 1,
                  trace := st.trace ++ [status] }
      else st
  | _ => st

/-- Model of `FileProcessor._read_file`: returns the content of the file, or
`None` when the read raises (oracle bit false, file absent, or the entry is
not plain text). -/
def _read_file (ok : Bool) (st : St) (p : FPath) : Option String :=
  if ok then
    match fsGet st.fs p with
    | some (.plain c) => some c
    | _ => none
  else none

/-- Model of `FileProcessor._write_file`: writes the content and returns
`True`, or returns `False` when the write raises. -/
def _write_file (ok : Bool) (st : St) (p : FPath) (content : String) : Bool × St :=
  if ok then
    (true, { st with fs := fsSet st.fs p (.plain content),
                     writes := st.writes ++ [(p, content)] })
  else (false, st)

/-- Model of one `Path.rename` call: moves the entry at `src` to `dst`;
raises when the source is missing. -/
def renameStep (st : St) (src dst : FPath) : Option String × St :=
  match fsGet st.fs src with
  | some e => (none, { st with fs := fsSet (fsErase st.fs src) dst e })
  | none => (some "No such file or directory", st)

/-- Model of `FileProcessor._move_to_processed`: mkdir the output directory,
rename the original, rename the processed file, then unlink the meta file if
it exists. Each step can raise; a raise aborts the rest, keeping the intermediate
state. -/
def _move_to_processed (o : Oracle) (st : St)
    (original_path processed_path meta_path : FPath) : Option String × St :=
  if o.mkdirOk then
    if o.renameOrigOk then
      match renameStep st original_path (outPath original_path) with
      | (some e, st1) => (some e, st1)
      | (none, st1) =>
        if o.renameProcOk then
          match renameStep st1 processed_path (outPath processed_path) with
          | (some e, st2) => (some e, st2)
          | (none, st2) =>
            match fsGet st2.fs meta_path with
            | some _ =>
                if o.unlinkOk then
                  (none, { st2 with fs := fsErase st2.fs meta_path })
                else (some o.errText, st2)
            | none => (none, st2)
        else (some o.errText, st1)
    else (some o.errText, st)
  else (some o.errText, st)

/-- Body of `FileProcessor.process_file` from the `meta_path` assignment on
(source lines 57-89): create the record, read, transform, write the processed
sibling, mark completed, move; the catch-all handler updates the record to
`failed` with `str(e)` and returns `False`. -/
def process_file_body (o : Oracle) (st1 : St) (filepath : FPath) : Bool × St :=
    let meta_path := filepath.withSuffix ".meta"
    match _create_meta_file o.createOk o.errText st1 meta_path filepath.name
        "processing" none with
    | (some e, st2) =>
      (false, _update_meta_file o.updFailedCreateOk st2 meta_path "failed" (some e))
    | (none, st2) =>
      match _read_file o.readOk st2 filepath with
      | none => (false, _update_meta_file o.updFailedReadOk st2 meta_path "failed"
          (some "Could not read file"))
      | some content =>
        let processed_content := pyUpper content
        let processed_path := filepath.withSuffix ".processed"
        match _write_file o.writeOk st2 processed_path processed_content with
        | (false, st3) =>
          (false, _update_meta_file o.updFailedWriteOk st3 meta_path "failed"
            (some "Could not write processed file"))
        | (true, st3) =>
          let st4 := _update_meta_file o.updCompletedOk st3 meta_path "completed" none
          match _move_to_processed o st4 filepath processed_path meta_path with
          | (some e, st5) =>
            (false, _update_meta_file o.updFailedMoveOk st5 meta_path "failed" (some e))
          | (none, st5) => (true, st5)

/-- Model of `FileProcessor.process_file`: the simulated latency sleep and
log lines are no-ops; `_touch` the path, then run the body. When `_touch`
itself raises, `meta_path` is not yet in scope, so the handler skips the
`failed` update and the call just returns `False`. -/
def process_file (o : Oracle) (st0 : St) (filepath : FPath) : Bool × St :=
  match _touch o.touchOk o.errText st0 filepath with
  | (some _, st1) => (false, st1)
  | (none, st1) => process_file_body o st1 filepath

/-- One observed item of the polling loop of a worker: a dequeued task (with the
I/O oracle for its run), the shutdown sentinel (`None` in the queue), or a
queue-get timeout (the `Empty` exception swallowed by the bare `except`). -/
inductive QItem where
  | task (o : Oracle) (p : FPath)
  | sentinel
  | timeout

/-- Model of `FileProcessor.worker` over a finite observation window of queue
items: timeouts continue the loop, the sentinel breaks it, a task runs
`process_file` to completion and the loop continues regardless of its result.
Alongside the final state it returns the results of the `process_file` calls
it made, in order. -/
def workerRun : List QItem → St → St × List Bool
  | [], st => (st, [])
  | QItem.timeout :: rest, st => workerRun rest st
  | QItem.sentinel :: _, st => (st, [])
  | QItem.task o p :: rest, st =>
      let r := process_file o st p
      let k := workerRun rest r.2
      (k.1, r.1 :: k.2)

end FileProcessor

/-- Number of task items a worker dequeues before the first sentinel. -/
def tasksBeforeSentinel : List FileProcessor.QItem → Nat
  | [] => 0
  | FileProcessor.QItem.timeout :: rest => tasksBeforeSentinel rest
  | FileProcessor.QItem.sentinel :: _ => 0
  | FileProcessor.QItem.task _ _ :: rest => tasksBeforeSentinel rest + 1

/-- Model of the fields of the `FileProcessingSystem` coordinator: the shared
queue (`none` is the shutdown sentinel), how many worker processes have been
spawned, whether an observer object exists and is running, and the `running`
flag. -/
structure FileProcessingSystem where
  queue : List (Option FPath)
  processors : Nat
  observer : Bool
  observerRunning : Bool
  running : Bool
deriving DecidableEq, Repr

namespace FileProcessingSystem

/-- State built by `FileProcessingSystem.__init__`. -/
def init : FileProcessingSystem :=
  ⟨[], 0, false, false, false⟩

/-- Model of `FileProcessingSystem.start`: sets `running`, appends
`MAX_CONCURRENT_PROCESSES` workers to the pool, starts the observer. -/
def start (s : FileProcessingSystem) : FileProcessingSystem :=
  { s with running := true,
           processors := s.processors + Config.MAX_CONCURRENT_PROCESSES,
           observer := true,
           observerRunning := true }

/-- Model of `FileProcessingSystem.stop`: clears `running`, stops the
observer when one exists, then puts one `None` sentinel per worker in
`self.processors` onto the queue and joins each with a timeout. -/
def stop (s : FileProcessingSystem) : FileProcessingSystem :=
  let s1 := { s with running := false }
  let s2 := if s1.observer then { s1 with observerRunning := false } else s1
  { s2 with queue := s2.queue ++ List.replicate s2.processors none }

end FileProcessingSystem

/-- Number of shutdown sentinels currently in the queue. -/
def countSentinels (q : List (Option FPath)) : Nat :=
  (q.filter (fun x => x = none)).length

/-! Concrete instances used by witnesses and counterexamples. -/

/-- Oracle under which every I/O operation succeeds. -/
def allOk : Oracle :=
  ⟨true, true, true, true, true, true, true, true, true, true, true, true, true, "boom"⟩

/-- Oracle under which the rename of the processed file fails. -/
def oRenFail : Oracle :=
  ⟨true, true, true, true, true, true, false, true, true, true, true, true, true,
    "rename failed"⟩

/-- Oracle under which reading the source file fails. -/
def oReadFail : Oracle :=
  ⟨true, true, false, true, true, true, true, true, true, true, true, true, true, "boom"⟩

/-- Oracle under which reading the source file fails and the rewrite inside
the subsequent `failed` metadata update also fails. -/
def oReadUpdFail : Oracle :=
  ⟨true, true, false, true, true, true, true, true, true, false, true, true, true, "boom"⟩

/-- Oracle under which the initial touch of the source path fails. -/
def oTouchFail : Oracle :=
  ⟨false, true, true, true, true, true, true, true, true, true, true, true, true,
    "disk error"⟩

/-- Input task `input/a.txt`. -/
def pA : FPath := ⟨"input", "a", ".txt"⟩

/-- State holding one input file `input/a.txt` with content `"hello"`. -/
def stA : St := ⟨[(pA, .plain "hello")], 0, [], []⟩

/-- State with an empty filesystem. -/
def stEmpty : St := ⟨[], 0, [], []⟩

/-- State holding a leftover metadata record at `input/a.meta`. -/
def stStaleMeta : St :=
  ⟨[(⟨"input", "a", ".meta"⟩, .meta ⟨"failed", 7, "a.txt", some "old error"⟩)], 10, [], []⟩

/-! Lemmas about the association-list filesystem. -/

theorem fsGet_fsErase_self (fs : FS) (p : FPath) : fsGet (fsErase fs p) p = none := by
  induction fs with
  | nil => rfl
  | cons hd tl ih =>
    obtain ⟨q, e⟩ := hd
    by_cases h : q = p
    · simp [fsErase, h, ih]
    · have h2 : ¬p = q := fun hh => h hh.symm
      simp [fsErase, fsGet, h, h2, ih]

theorem fsGet_fsErase_ne (fs : FS) (p q : FPath) (h : q ≠ p) :
    fsGet (fsErase fs p) q = fsGet fs q := by
  induction fs with
  | nil => rfl
  | cons hd tl ih =>
    obtain ⟨k, e⟩ := hd
    by_cases hk : k = p
    · subst hk
      have h2 : ¬q = k := h
      simp [fsErase, fsGet, h2, ih]
    · by_cases hq : q = k <;> simp [fsErase, fsGet, hk, hq, ih]

theorem fsGet_fsSet_self (fs : FS) (p : FPath) (e : Entry) :
    fsGet (fsSet fs p e) p = some e := by
  simp [fsSet, fsGet]

theorem fsGet_fsSet_ne (fs : FS) (p q : FPath) (e : Entry) (h : q ≠ p) :
    fsGet (fsSet fs p e) q = fsGet fs q := by
  simp [fsSet, fsGet, h, fsGet_fsErase_ne _ _ _ h]

theorem FPath.ne_of_suffix {p q : FPath} (h : p.suffix ≠ q.suffix) : p ≠ q :=
  fun hh => h (congrArg FPath.suffix hh)

theorem process_file_body_cases (o : Oracle) (st1 : St) (p : FPath)
    (hx1 : p.suffix ≠ ".meta") (hx2 : p.suffix ≠ ".processed")
    (h0 : fsGet st1.fs (p.withSuffix ".meta") = none)
    (ht : st1.trace = []) :
    (FileProcessor.process_file_body o st1 p = (false, st1)) ∨
    ((FileProcessor.process_file_body o st1 p).1 = false ∧
      (FileProcessor.process_file_body o st1 p).2.trace = ["processing", "failed"] ∧
      (∀ q : FPath, q ≠ p.withSuffix ".meta" →
        fsGet (FileProcessor.process_file_body o st1 p).2.fs q = fsGet st1.fs q) ∧
      (FileProcessor.process_file_body o st1 p).2.writes = st1.writes ∧
      (∃ lu : Nat, fsGet (FileProcessor.process_file_body o st1 p).2.fs (p.withSuffix ".meta") =
        some (.meta ⟨"failed", lu, p.name, some "Could not read file"⟩))) ∨
    ((FileProcessor.process_file_body o st1 p).1 = false ∧
      (FileProcessor.process_file_body o st1 p).2.trace = ["processing", "failed"] ∧
      (∀ q : FPath, q ≠ p.withSuffix ".meta" →
        fsGet (FileProcessor.process_file_body o st1 p).2.fs q = fsGet st1.fs q) ∧
      (FileProcessor.process_file_body o st1 p).2.writes = st1.writes ∧
      (∃ lu : Nat, fsGet (FileProcessor.process_file_body o st1 p).2.fs (p.withSuffix ".meta") =
        some (.meta ⟨"failed", lu, p.name, some "Could not write processed file"⟩))) ∨
    ((FileProcessor.process_file_body o st1 p).1 = false ∧
      (FileProcessor.process_file_body o st1 p).2.trace = ["processing", "completed", "failed"]) ∨
    ((FileProcessor.process_file_body o st1 p).1 = true ∧
      (FileProcessor.process_file_body o st1 p).2.trace = ["processing", "completed"] ∧
      (∃ c : String, fsGet st1.fs p = some (.plain c) ∧
        fsGet (FileProcessor.process_file_body o st1 p).2.fs (outPath p) = some (.plain c) ∧
        fsGet (FileProcessor.process_file_body o st1 p).2.fs (outPath (p.withSuffix ".processed")) = some (.plain (pyUpper c)) ∧
        (FileProcessor.process_file_body o st1 p).2.writes = st1.writes ++ [(p.withSuffix ".processed", pyUpper c)]) ∧
      fsGet (FileProcessor.process_file_body o st1 p).2.fs (p.withSuffix ".meta") = none) ∨
    ((FileProcessor.process_file_body o st1 p).1 = false ∧ (FileProcessor.process_file_body o st1 p).2.trace = ["processing"]) ∨
    ((FileProcessor.process_file_body o st1 p).1 = false ∧ (FileProcessor.process_file_body o st1 p).2.trace = ["processing", "completed"]) ∨
    ((FileProcessor.process_file_body o st1 p).1 = true ∧
      (FileProcessor.process_file_body o st1 p).2.trace = ["processing"] ∧
      (∃ c : String, fsGet st1.fs p = some (.plain c) ∧
        fsGet (FileProcessor.process_file_body o st1 p).2.fs (outPath p) = some (.plain c) ∧
        fsGet (FileProcessor.process_file_body o st1 p).2.fs (outPath (p.withSuffix ".processed")) = some (.plain (pyUpper c)) ∧
        (FileProcessor.process_file_body o st1 p).2.writes = st1.writes ++ [(p.withSuffix ".processed", pyUpper c)]) ∧
      fsGet (FileProcessor.process_file_body o st1 p).2.fs (p.withSuffix ".meta") = none) ∨
    ((FileProcessor.process_file_body o st1 p).1 = false ∧
      (FileProcessor.process_file_body o st1 p).2.trace = ["processing", "failed"] ∧
      (∃ c : String, (FileProcessor.process_file_body o st1 p).2.writes = st1.writes ++ [(p.withSuffix ".processed", pyUpper c)])) := by
  obtain ⟨tOk, cOk, rOk, wOk, mkOk, r1Ok, r2Ok, uOk, uA, uB, uC, uD, uE, err⟩ := o
  have n1 : p ≠ p.withSuffix ".meta" := FPath.ne_of_suffix hx1
  have n2 : p.withSuffix ".meta" ≠ p := n1.symm
  have n3 : p ≠ p.withSuffix ".processed" := FPath.ne_of_suffix hx2
  have n4 : p.withSuffix ".processed" ≠ p := n3.symm
  have n5 : p.withSuffix ".meta" ≠ p.withSuffix ".processed" :=
    FPath.ne_of_suffix (show (".meta" : String) ≠ ".processed" by decide)
  have n6 : p.withSuffix ".processed" ≠ p.withSuffix ".meta" :=
    FPath.ne_of_suffix (show (".processed" : String) ≠ ".meta" by decide)
  have n7 : outPath p ≠ p.withSuffix ".meta" := FPath.ne_of_suffix hx1
  have n8 : p.withSuffix ".meta" ≠ outPath p := n7.symm
  have n9 : outPath p ≠ p.withSuffix ".processed" := FPath.ne_of_suffix hx2
  have n10 : p.withSuffix ".processed" ≠ outPath p := n9.symm
  have n11 : outPath (p.withSuffix ".processed") ≠ p.withSuffix ".meta" :=
    FPath.ne_of_suffix (show (".processed" : String) ≠ ".meta" by decide)
  have n12 : p.withSuffix ".meta" ≠ outPath (p.withSuffix ".processed") := n11.symm
  have n13 : outPath p ≠ outPath (p.withSuffix ".processed") := FPath.ne_of_suffix hx2
  have n14 : outPath (p.withSuffix ".processed") ≠ outPath p := n13.symm
  have hne1 : ("Could not read file" : String) ≠ "" := by decide
  have hne2 : ("Could not write processed file" : String) ≠ "" := by decide
  cases cOk with
  | false =>
    left
    simp [FileProcessor.process_file_body, FileProcessor._create_meta_file,
      FileProcessor._read_file, FileProcessor._write_file,
      FileProcessor._update_meta_file, FileProcessor._move_to_processed,
      FileProcessor.renameStep, truthyMsg, fsGet_fsSet_self, fsGet_fsSet_ne,
      fsGet_fsErase_self, fsGet_fsErase_ne, ht, hne1, hne2,
      n1, n2, n3, n4, n5, n6, n7, n8, n9, n10, n11, n12, n13, n14, h0]
  | true =>
    cases rOk with
    | false =>
      cases uB with
      | true =>
        right; left
        refine ⟨?_, ?_, fun q hq => ?_, ?_, ⟨st1.clock + 1, ?_⟩⟩
        · simp [FileProcessor.process_file_body, FileProcessor._create_meta_file,
            FileProcessor._read_file, FileProcessor._write_file,
            FileProcessor._update_meta_file, FileProcessor._move_to_processed,
            FileProcessor.renameStep, truthyMsg, fsGet_fsSet_self, fsGet_fsSet_ne,
            fsGet_fsErase_self, fsGet_fsErase_ne, ht, hne1, hne2,
            n1, n2, n3, n4, n5, n6, n7, n8, n9, n10, n11, n12, n13, n14]
        · simp [FileProcessor.process_file_body, FileProcessor._create_meta_file,
            FileProcessor._read_file, FileProcessor._write_file,
            FileProcessor._update_meta_file, FileProcessor._move_to_processed,
            FileProcessor.renameStep, truthyMsg, fsGet_fsSet_self, fsGet_fsSet_ne,
            fsGet_fsErase_self, fsGet_fsErase_ne, ht, hne1, hne2,
            n1, n2, n3, n4, n5, n6, n7, n8, n9, n10, n11, n12, n13, n14]
        · simp [FileProcessor.process_file_body, FileProcessor._create_meta_file,
            FileProcessor._read_file, FileProcessor._write_file,
            FileProcessor._update_meta_file, FileProcessor._move_to_processed,
            FileProcessor.renameStep, truthyMsg, fsGet_fsSet_self, fsGet_fsSet_ne,
            fsGet_fsErase_self, fsGet_fsErase_ne, ht, hne1, hne2,
            n1, n2, n3, n4, n5, n6, n7, n8, n9, n10, n11, n12, n13, n14, hq]
        · simp [FileProcessor.process_file_body, FileProcessor._create_meta_file,
            FileProcessor._read_file, FileProcessor._write_file,
            FileProcessor._update_meta_file, FileProcessor._move_to_processed,
            FileProcessor.renameStep, truthyMsg, fsGet_fsSet_self, fsGet_fsSet_ne,
            fsGet_fsErase_self, fsGet_fsErase_ne, ht, hne1, hne2,
            n1, n2, n3, n4, n5, n6, n7, n8, n9, n10, n11, n12, n13, n14]
        · simp [FileProcessor.process_file_body, FileProcessor._create_meta_file,
            FileProcessor._read_file, FileProcessor._write_file,
            FileProcessor._update_meta_file, FileProcessor._move_to_processed,
            FileProcessor.renameStep, truthyMsg, fsGet_fsSet_self, fsGet_fsSet_ne,
            fsGet_fsErase_self, fsGet_fsErase_ne, ht, hne1, hne2,
            n1, n2, n3, n4, n5, n6, n7, n8, n9, n10, n11, n12, n13, n14]
      | false =>
        right; right; right; right; right; left
        refine ⟨?_, ?_⟩
        · simp [FileProcessor.process_file_body, FileProcessor._create_meta_file,
            FileProcessor._read_file, FileProcessor._write_file,
            FileProcessor._update_meta_file, FileProcessor._move_to_processed,
            FileProcessor.renameStep, truthyMsg, fsGet_fsSet_self, fsGet_fsSet_ne,
            fsGet_fsErase_self, fsGet_fsErase_ne, ht, hne1, hne2,
            n1, n2, n3, n4, n5, n6, n7, n8, n9, n10, n11, n12, n13, n14]
        · simp [FileProcessor.process_file_body, FileProcessor._create_meta_file,
            FileProcessor._read_file, FileProcessor._write_file,
            FileProcessor._update_meta_file, FileProcessor._move_to_processed,
            FileProcessor.renameStep, truthyMsg, fsGet_fsSet_self, fsGet_fsSet_ne,
            fsGet_fsErase_self, fsGet_fsErase_ne, ht, hne1, hne2,
            n1, n2, n3, n4, n5, n6, n7, n8, n9, n10, n11, n12, n13, n14]
    | true =>
      rcases hg : fsGet st1.fs p with _ | e
      case none =>
        cases uB with
        | true =>
          right; left
          refine ⟨?_, ?_, fun q hq => ?_, ?_, ⟨st1.clock + 1, ?_⟩⟩
          · simp [FileProcessor.process_file_body, FileProcessor._create_meta_file,
              FileProcessor._read_file, FileProcessor._write_file,
              FileProcessor._update_meta_file, FileProcessor._move_to_processed,
              FileProcessor.renameStep, truthyMsg, fsGet_fsSet_self, fsGet_fsSet_ne,
              fsGet_fsErase_self, fsGet_fsErase_ne, ht, hne1, hne2,
              n1, n2, n3, n4, n5, n6, n7, n8, n9, n10, n11, n12, n13, n14, hg]
          · simp [FileProcessor.process_file_body, FileProcessor._create_meta_file,
              FileProcessor._read_file, FileProcessor._write_file,
              FileProcessor._update_meta_file, FileProcessor._move_to_processed,
              FileProcessor.renameStep, truthyMsg, fsGet_fsSet_self, fsGet_fsSet_ne,
              fsGet_fsErase_self, fsGet_fsErase_ne, ht, hne1, hne2,
              n1, n2, n3, n4, n5, n6, n7, n8, n9, n10, n11, n12, n13, n14, hg]
          · simp [FileProcessor.process_file_body, FileProcessor._create_meta_file,
              FileProcessor._read_file, FileProcessor._write_file,
              FileProcessor._update_meta_file, FileProcessor._move_to_processed,
              FileProcessor.renameStep, truthyMsg, fsGet_fsSet_self, fsGet_fsSet_ne,
              fsGet_fsErase_self, fsGet_fsErase_ne, ht, hne1, hne2,
              n1, n2, n3, n4, n5, n6, n7, n8, n9, n10, n11, n12, n13, n14, hg, hq]
          · simp [FileProcessor.process_file_body, FileProcessor._create_meta_file,
              FileProcessor._read_file, FileProcessor._write_file,
              FileProcessor._update_meta_file, FileProcessor._move_to_processed,
              FileProcessor.renameStep, truthyMsg, fsGet_fsSet_self, fsGet_fsSet_ne,
              fsGet_fsErase_self, fsGet_fsErase_ne, ht, hne1, hne2,
              n1, n2, n3, n4, n5, n6, n7, n8, n9, n10, n11, n12, n13, n14, hg]
          · simp [FileProcessor.process_file_body, FileProcessor._create_meta_file,
              FileProcessor._read_file, FileProcessor._write_file,
              FileProcessor._update_meta_file, FileProcessor._move_to_processed,
              FileProcessor.renameStep, truthyMsg, fsGet_fsSet_self, fsGet_fsSet_ne,
              fsGet_fsErase_self, fsGet_fsErase_ne, ht, hne1, hne2,
              n1, n2, n3, n4, n5, n6, n7, n8, n9, n10, n11, n12, n13, n14, hg]
        | false =>
          right; right; right; right; right; left
          refine ⟨?_, ?_⟩
          · simp [FileProcessor.process_file_body, FileProcessor._create_meta_file,
              FileProcessor._read_file, FileProcessor._write_file,
              FileProcessor._update_meta_file, FileProcessor._move_to_processed,
              FileProcessor.renameStep, truthyMsg, fsGet_fsSet_self, fsGet_fsSet_ne,
              fsGet_fsErase_self, fsGet_fsErase_ne, ht, hne1, hne2,
              n1, n2, n3, n4, n5, n6, n7, n8, n9, n10, n11, n12, n13, n14, hg]
          · simp [FileProcessor.process_file_body, FileProcessor._create_meta_file,
              FileProcessor._read_file, FileProcessor._write_file,
              FileProcessor._update_meta_file, FileProcessor._move_to_processed,
              FileProcessor.renameStep, truthyMsg, fsGet_fsSet_self, fsGet_fsSet_ne,
              fsGet_fsErase_self, fsGet_fsErase_ne, ht, hne1, hne2,
              n1, n2, n3, n4, n5, n6, n7, n8, n9, n10, n11, n12, n13, n14, hg]
      case some =>
        cases e with
        | meta m =>
          cases uB with
          | true =>
            right; left
            refine ⟨?_, ?_, fun q hq => ?_, ?_, ⟨st1.clock + 1, ?_⟩⟩
            · simp [FileProcessor.process_file_body, FileProcessor._create_meta_file,
                FileProcessor._read_file, FileProcessor._write_file,
                FileProcessor._update_meta_file, FileProcessor._move_to_processed,
                FileProcessor.renameStep, truthyMsg, fsGet_fsSet_self, fsGet_fsSet_ne,
                fsGet_fsErase_self, fsGet_fsErase_ne, ht, hne1, hne2,
                n1, n2, n3, n4, n5, n6, n7, n8, n9, n10, n11, n12, n13, n14, hg]
            · simp [FileProcessor.process_file_body, FileProcessor._create_meta_file,
                FileProcessor._read_file, FileProcessor._write_file,
                FileProcessor._update_meta_file, FileProcessor._move_to_processed,
                FileProcessor.renameStep, truthyMsg, fsGet_fsSet_self, fsGet_fsSet_ne,
                fsGet_fsErase_self, fsGet_fsErase_ne, ht, hne1, hne2,
                n1, n2, n3, n4, n5, n6, n7, n8, n9, n10, n11, n12, n13, n14, hg]
            · simp [FileProcessor.process_file_body, FileProcessor._create_meta_file,
                FileProcessor._read_file, FileProcessor._write_file,
                FileProcessor._update_meta_file, FileProcessor._move_to_processed,
                FileProcessor.renameStep, truthyMsg, fsGet_fsSet_self, fsGet_fsSet_ne,
                fsGet_fsErase_self, fsGet_fsErase_ne, ht, hne1, hne2,
                n1, n2, n3, n4, n5, n6, n7, n8, n9, n10, n11, n12, n13, n14, hg, hq]
            · simp [FileProcessor.process_file_body, FileProcessor._create_meta_file,
                FileProcessor._read_file, FileProcessor._write_file,
                FileProcessor._update_meta_file, FileProcessor._move_to_processed,
                FileProcessor.renameStep, truthyMsg, fsGet_fsSet_self, fsGet_fsSet_ne,
                fsGet_fsErase_self, fsGet_fsErase_ne, ht, hne1, hne2,
                n1, n2, n3, n4, n5, n6, n7, n8, n9, n10, n11, n12, n13, n14, hg]
            · simp [FileProcessor.process_file_body, FileProcessor._create_meta_file,
                FileProcessor._read_file, FileProcessor._write_file,
                FileProcessor._update_meta_file, FileProcessor._move_to_processed,
                FileProcessor.renameStep, truthyMsg, fsGet_fsSet_self, fsGet_fsSet_ne,
                fsGet_fsErase_self, fsGet_fsErase_ne, ht, hne1, hne2,
                n1, n2, n3, n4, n5, n6, n7, n8, n9, n10, n11, n12, n13, n14, hg]
          | false =>
            right; right; right; right; right; left
            refine ⟨?_, ?_⟩
            · simp [FileProcessor.process_file_body, FileProcessor._create_meta_file,
                FileProcessor._read_file, FileProcessor._write_file,
                FileProcessor._update_meta_file, FileProcessor._move_to_processed,
                FileProcessor.renameStep, truthyMsg, fsGet_fsSet_self, fsGet_fsSet_ne,
                fsGet_fsErase_self, fsGet_fsErase_ne, ht, hne1, hne2,
                n1, n2, n3, n4, n5, n6, n7, n8, n9, n10, n11, n12, n13, n14, hg]
            · simp [FileProcessor.process_file_body, FileProcessor._create_meta_file,
                FileProcessor._read_file, FileProcessor._write_file,
                FileProcessor._update_meta_file, FileProcessor._move_to_processed,
                FileProcessor.renameStep, truthyMsg, fsGet_fsSet_self, fsGet_fsSet_ne,
                fsGet_fsErase_self, fsGet_fsErase_ne, ht, hne1, hne2,
                n1, n2, n3, n4, n5, n6, n7, n8, n9, n10, n11, n12, n13, n14, hg]
        | plain c =>
          cases wOk with
          | false =>
            cases uC with
            | true =>
              right; right; left
              refine ⟨?_, ?_, fun q hq => ?_, ?_, ⟨st1.clock + 1, ?_⟩⟩
              · simp [FileProcessor.process_file_body, FileProcessor._create_meta_file,
                  FileProcessor._read_file, FileProcessor._write_file,
                  FileProcessor._update_meta_file, FileProcessor._move_to_processed,
                  FileProcessor.renameStep, truthyMsg, fsGet_fsSet_self, fsGet_fsSet_ne,
                  fsGet_fsErase_self, fsGet_fsErase_ne, ht, hne1, hne2,
                  n1, n2, n3, n4, n5, n6, n7, n8, n9, n10, n11, n12, n13, n14, hg]
              · simp [FileProcessor.process_file_body, FileProcessor._create_meta_file,
                  FileProcessor._read_file, FileProcessor._write_file,
                  FileProcessor._update_meta_file, FileProcessor._move_to_processed,
                  FileProcessor.renameStep, truthyMsg, fsGet_fsSet_self, fsGet_fsSet_ne,
                  fsGet_fsErase_self, fsGet_fsErase_ne, ht, hne1, hne2,
                  n1, n2, n3, n4, n5, n6, n7, n8, n9, n10, n11, n12, n13, n14, hg]
              · simp [FileProcessor.process_file_body, FileProcessor._create_meta_file,
                  FileProcessor._read_file, FileProcessor._write_file,
                  FileProcessor._update_meta_file, FileProcessor._move_to_processed,
                  FileProcessor.renameStep, truthyMsg, fsGet_fsSet_self, fsGet_fsSet_ne,
                  fsGet_fsErase_self, fsGet_fsErase_ne, ht, hne1, hne2,
                  n1, n2, n3, n4, n5, n6, n7, n8, n9, n10, n11, n12, n13, n14, hg, hq]
              · simp [FileProcessor.process_file_body, FileProcessor._create_meta_file,
                  FileProcessor._read_file, FileProcessor._write_file,
                  FileProcessor._update_meta_file, FileProcessor._move_to_processed,
                  FileProcessor.renameStep, truthyMsg, fsGet_fsSet_self, fsGet_fsSet_ne,
                  fsGet_fsErase_self, fsGet_fsErase_ne, ht, hne1, hne2,
                  n1, n2, n3, n4, n5, n6, n7, n8, n9, n10, n11, n12, n13, n14, hg]
              · simp [FileProcessor.process_file_body, FileProcessor._create_meta_file,
                  FileProcessor._read_file, FileProcessor._write_file,
                  FileProcessor._update_meta_file, FileProcessor._move_to_processed,
                  FileProcessor.renameStep, truthyMsg, fsGet_fsSet_self, fsGet_fsSet_ne,
                  fsGet_fsErase_self, fsGet_fsErase_ne, ht, hne1, hne2,
                  n1, n2, n3, n4, n5, n6, n7, n8, n9, n10, n11, n12, n13, n14, hg]
            | false =>
              right; right; right; right; right; left
              refine ⟨?_, ?_⟩
              · simp [FileProcessor.process_file_body, FileProcessor._create_meta_file,
                  FileProcessor._read_file, FileProcessor._write_file,
                  FileProcessor._update_meta_file, FileProcessor._move_to_processed,
                  FileProcessor.renameStep, truthyMsg, fsGet_fsSet_self, fsGet_fsSet_ne,
                  fsGet_fsErase_self, fsGet_fsErase_ne, ht, hne1, hne2,
                  n1, n2, n3, n4, n5, n6, n7, n8, n9, n10, n11, n12, n13, n14, hg]
              · simp [FileProcessor.process_file_body, FileProcessor._create_meta_file,
                  FileProcessor._read_file, FileProcessor._write_file,
                  FileProcessor._update_meta_file, FileProcessor._move_to_processed,
                  FileProcessor.renameStep, truthyMsg, fsGet_fsSet_self, fsGet_fsSet_ne,
                  fsGet_fsErase_self, fsGet_fsErase_ne, ht, hne1, hne2,
                  n1, n2, n3, n4, n5, n6, n7, n8, n9, n10, n11, n12, n13, n14, hg]
          | true =>
            cases uD with
            | true =>
              cases mkOk with
              | false =>
                cases uE with
                | true =>
                  right; right; right; left
                  refine ⟨?_, ?_⟩
                  · simp [FileProcessor.process_file_body, FileProcessor._create_meta_file,
                      FileProcessor._read_file, FileProcessor._write_file,
                      FileProcessor._update_meta_file, FileProcessor._move_to_processed,
                      FileProcessor.renameStep, truthyMsg, fsGet_fsSet_self, fsGet_fsSet_ne,
                      fsGet_fsErase_self, fsGet_fsErase_ne, ht, hne1, hne2,
                      n1, n2, n3, n4, n5, n6, n7, n8, n9, n10, n11, n12, n13, n14, hg]
                  · simp [FileProcessor.process_file_body, FileProcessor._create_meta_file,
                      FileProcessor._read_file, FileProcessor._write_file,
                      FileProcessor._update_meta_file, FileProcessor._move_to_processed,
                      FileProcessor.renameStep, truthyMsg, fsGet_fsSet_self, fsGet_fsSet_ne,
                      fsGet_fsErase_self, fsGet_fsErase_ne, ht, hne1, hne2,
                      n1, n2, n3, n4, n5, n6, n7, n8, n9, n10, n11, n12, n13, n14, hg]
                | false =>
                  right; right; right; right; right; right; left
                  refine ⟨?_, ?_⟩
                  · simp [FileProcessor.process_file_body, FileProcessor._create_meta_file,
                      FileProcessor._read_file, FileProcessor._write_file,
                      FileProcessor._update_meta_file, FileProcessor._move_to_processed,
                      FileProcessor.renameStep, truthyMsg, fsGet_fsSet_self, fsGet_fsSet_ne,
                      fsGet_fsErase_self, fsGet_fsErase_ne, ht, hne1, hne2,
                      n1, n2, n3, n4, n5, n6, n7, n8, n9, n10, n11, n12, n13, n14, hg]
                  · simp [FileProcessor.process_file_body, FileProcessor._create_meta_file,
                      FileProcessor._read_file, FileProcessor._write_file,
                      FileProcessor._update_meta_file, FileProcessor._move_to_processed,
                      FileProcessor.renameStep, truthyMsg, fsGet_fsSet_self, fsGet_fsSet_ne,
                      fsGet_fsErase_self, fsGet_fsErase_ne, ht, hne1, hne2,
                      n1, n2, n3, n4, n5, n6, n7, n8, n9, n10, n11, n12, n13, n14, hg]
              | true =>
                cases r1Ok with
                | false =>
                  cases uE with
                  | true =>
                    right; right; right; left
                    refine ⟨?_, ?_⟩
                    · simp [FileProcessor.process_file_body, FileProcessor._create_meta_file,
                        FileProcessor._read_file, FileProcessor._write_file,
                        FileProcessor._update_meta_file, FileProcessor._move_to_processed,
                        FileProcessor.renameStep, truthyMsg, fsGet_fsSet_self, fsGet_fsSet_ne,
                        fsGet_fsErase_self, fsGet_fsErase_ne, ht, hne1, hne2,
                        n1, n2, n3, n4, n5, n6, n7, n8, n9, n10, n11, n12, n13, n14, hg]
                    · simp [FileProcessor.process_file_body, FileProcessor._create_meta_file,
                        FileProcessor._read_file, FileProcessor._write_file,
                        FileProcessor._update_meta_file, FileProcessor._move_to_processed,
                        FileProcessor.renameStep, truthyMsg, fsGet_fsSet_self, fsGet_fsSet_ne,
                        fsGet_fsErase_self, fsGet_fsErase_ne, ht, hne1, hne2,
                        n1, n2, n3, n4, n5, n6, n7, n8, n9, n10, n11, n12, n13, n14, hg]
                  | false =>
                    right; right; right; right; right; right; left
                    refine ⟨?_, ?_⟩
                    · simp [FileProcessor.process_file_body, FileProcessor._create_meta_file,
                        FileProcessor._read_file, FileProcessor._write_file,
                        FileProcessor._update_meta_file, FileProcessor._move_to_processed,
                        FileProcessor.renameStep, truthyMsg, fsGet_fsSet_self, fsGet_fsSet_ne,
                        fsGet_fsErase_self, fsGet_fsErase_ne, ht, hne1, hne2,
                        n1, n2, n3, n4, n5, n6, n7, n8, n9, n10, n11, n12, n13, n14, hg]
                    · simp [FileProcessor.process_file_body, FileProcessor._create_meta_file,
                        FileProcessor._read_file, FileProcessor._write_file,
                        FileProcessor._update_meta_file, FileProcessor._move_to_processed,
                        FileProcessor.renameStep, truthyMsg, fsGet_fsSet_self, fsGet_fsSet_ne,
                        fsGet_fsErase_self, fsGet_fsErase_ne, ht, hne1, hne2,
                        n1, n2, n3, n4, n5, n6, n7, n8, n9, n10, n11, n12, n13, n14, hg]
                | true =>
                  cases r2Ok with
                  | false =>
                    cases uE with
                    | true =>
                      right; right; right; left
                      refine ⟨?_, ?_⟩
                      · simp [FileProcessor.process_file_body, FileProcessor._create_meta_file,
                          FileProcessor._read_file, FileProcessor._write_file,
                          FileProcessor._update_meta_file, FileProcessor._move_to_processed,
                          FileProcessor.renameStep, truthyMsg, fsGet_fsSet_self, fsGet_fsSet_ne,
                          fsGet_fsErase_self, fsGet_fsErase_ne, ht, hne1, hne2,
                          n1, n2, n3, n4, n5, n6, n7, n8, n9, n10, n11, n12, n13, n14, hg]
                      · simp [FileProcessor.process_file_body, FileProcessor._create_meta_file,
                          FileProcessor._read_file, FileProcessor._write_file,
                          FileProcessor._update_meta_file, FileProcessor._move_to_processed,
                          FileProcessor.renameStep, truthyMsg, fsGet_fsSet_self, fsGet_fsSet_ne,
                          fsGet_fsErase_self, fsGet_fsErase_ne, ht, hne1, hne2,
                          n1, n2, n3, n4, n5, n6, n7, n8, n9, n10, n11, n12, n13, n14, hg]
                    | false =>
                      right; right; right; right; right; right; left
                      refine ⟨?_, ?_⟩
                      · simp [FileProcessor.process_file_body, FileProcessor._create_meta_file,
                          FileProcessor._read_file, FileProcessor._write_file,
                          FileProcessor._update_meta_file, FileProcessor._move_to_processed,
                          FileProcessor.renameStep, truthyMsg, fsGet_fsSet_self, fsGet_fsSet_ne,
                          fsGet_fsErase_self, fsGet_fsErase_ne, ht, hne1, hne2,
                          n1, n2, n3, n4, n5, n6, n7, n8, n9, n10, n11, n12, n13, n14, hg]
                      · simp [FileProcessor.process_file_body, FileProcessor._create_meta_file,
                          FileProcessor._read_file, FileProcessor._write_file,
                          FileProcessor._update_meta_file, FileProcessor._move_to_processed,
                          FileProcessor.renameStep, truthyMsg, fsGet_fsSet_self, fsGet_fsSet_ne,
                          fsGet_fsErase_self, fsGet_fsErase_ne, ht, hne1, hne2,
                          n1, n2, n3, n4, n5, n6, n7, n8, n9, n10, n11, n12, n13, n14, hg]
                  | true =>
                    cases uOk with
                    | false =>
                      cases uE with
                      | true =>
                        right; right; right; left
                        refine ⟨?_, ?_⟩
                        · simp [FileProcessor.process_file_body, FileProcessor._create_meta_file,
                            FileProcessor._read_file, FileProcessor._write_file,
                            FileProcessor._update_meta_file, FileProcessor._move_to_processed,
                            FileProcessor.renameStep, truthyMsg, fsGet_fsSet_self, fsGet_fsSet_ne,
                            fsGet_fsErase_self, fsGet_fsErase_ne, ht, hne1, hne2,
                            n1, n2, n3, n4, n5, n6, n7, n8, n9, n10, n11, n12, n13, n14, hg]
                        · simp [FileProcessor.process_file_body, FileProcessor._create_meta_file,
                            FileProcessor._read_file, FileProcessor._write_file,
                            FileProcessor._update_meta_file, FileProcessor._move_to_processed,
                            FileProcessor.renameStep, truthyMsg, fsGet_fsSet_self, fsGet_fsSet_ne,
                            fsGet_fsErase_self, fsGet_fsErase_ne, ht, hne1, hne2,
                            n1, n2, n3, n4, n5, n6, n7, n8, n9, n10, n11, n12, n13, n14, hg]
                      | false =>
                        right; right; right; right; right; right; left
                        refine ⟨?_, ?_⟩
                        · simp [FileProcessor.process_file_body, FileProcessor._create_meta_file,
                            FileProcessor._read_file, FileProcessor._write_file,
                            FileProcessor._update_meta_file, FileProcessor._move_to_processed,
                            FileProcessor.renameStep, truthyMsg, fsGet_fsSet_self, fsGet_fsSet_ne,
                            fsGet_fsErase_self, fsGet_fsErase_ne, ht, hne1, hne2,
                            n1, n2, n3, n4, n5, n6, n7, n8, n9, n10, n11, n12, n13, n14, hg]
                        · simp [FileProcessor.process_file_body, FileProcessor._create_meta_file,
                            FileProcessor._read_file, FileProcessor._write_file,
                            FileProcessor._update_meta_file, FileProcessor._move_to_processed,
                            FileProcessor.renameStep, truthyMsg, fsGet_fsSet_self, fsGet_fsSet_ne,
                            fsGet_fsErase_self, fsGet_fsErase_ne, ht, hne1, hne2,
                            n1, n2, n3, n4, n5, n6, n7, n8, n9, n10, n11, n12, n13, n14, hg]
                    | true =>
                      right; right; right; right; left
                      refine ⟨?_, ?_, ⟨c, rfl, ?_, ?_, ?_⟩, ?_⟩
                      · simp [FileProcessor.process_file_body, FileProcessor._create_meta_file,
                          FileProcessor._read_file, FileProcessor._write_file,
                          FileProcessor._update_meta_file, FileProcessor._move_to_processed,
                          FileProcessor.renameStep, truthyMsg, fsGet_fsSet_self, fsGet_fsSet_ne,
                          fsGet_fsErase_self, fsGet_fsErase_ne, ht, hne1, hne2,
                          n1, n2, n3, n4, n5, n6, n7, n8, n9, n10, n11, n12, n13, n14, hg]
                      · simp [FileProcessor.process_file_body, FileProcessor._create_meta_file,
                          FileProcessor._read_file, FileProcessor._write_file,
                          FileProcessor._update_meta_file, FileProcessor._move_to_processed,
                          FileProcessor.renameStep, truthyMsg, fsGet_fsSet_self, fsGet_fsSet_ne,
                          fsGet_fsErase_self, fsGet_fsErase_ne, ht, hne1, hne2,
                          n1, n2, n3, n4, n5, n6, n7, n8, n9, n10, n11, n12, n13, n14, hg]
                      · simp [FileProcessor.process_file_body, FileProcessor._create_meta_file,
                          FileProcessor._read_file, FileProcessor._write_file,
                          FileProcessor._update_meta_file, FileProcessor._move_to_processed,
                          FileProcessor.renameStep, truthyMsg, fsGet_fsSet_self, fsGet_fsSet_ne,
                          fsGet_fsErase_self, fsGet_fsErase_ne, ht, hne1, hne2,
                          n1, n2, n3, n4, n5, n6, n7, n8, n9, n10, n11, n12, n13, n14, hg]
                      · simp [FileProcessor.process_file_body, FileProcessor._create_meta_file,
                          FileProcessor._read_file, FileProcessor._write_file,
                          FileProcessor._update_meta_file, FileProcessor._move_to_processed,
                          FileProcessor.renameStep, truthyMsg, fsGet_fsSet_self, fsGet_fsSet_ne,
                          fsGet_fsErase_self, fsGet_fsErase_ne, ht, hne1, hne2,
                          n1, n2, n3, n4, n5, n6, n7, n8, n9, n10, n11, n12, n13, n14, hg]
                      · simp [FileProcessor.process_file_body, FileProcessor._create_meta_file,
                          FileProcessor._read_file, FileProcessor._write_file,
                          FileProcessor._update_meta_file, FileProcessor._move_to_processed,
                          FileProcessor.renameStep, truthyMsg, fsGet_fsSet_self, fsGet_fsSet_ne,
                          fsGet_fsErase_self, fsGet_fsErase_ne, ht, hne1, hne2,
                          n1, n2, n3, n4, n5, n6, n7, n8, n9, n10, n11, n12, n13, n14, hg]
                      · simp [FileProcessor.process_file_body, FileProcessor._create_meta_file,
                          FileProcessor._read_file, FileProcessor._write_file,
                          FileProcessor._update_meta_file, FileProcessor._move_to_processed,
                          FileProcessor.renameStep, truthyMsg, fsGet_fsSet_self, fsGet_fsSet_ne,
                          fsGet_fsErase_self, fsGet_fsErase_ne, ht, hne1, hne2,
                          n1, n2, n3, n4, n5, n6, n7, n8, n9, n10, n11, n12, n13, n14, hg]
            | false =>
              cases mkOk with
              | false =>
                cases uE with
                | true =>
                  right; right; right; right; right; right; right; right
                  refine ⟨?_, ?_, ⟨c, ?_⟩⟩
                  · simp [FileProcessor.process_file_body, FileProcessor._create_meta_file,
                      FileProcessor._read_file, FileProcessor._write_file,
                      FileProcessor._update_meta_file, FileProcessor._move_to_processed,
                      FileProcessor.renameStep, truthyMsg, fsGet_fsSet_self, fsGet_fsSet_ne,
                      fsGet_fsErase_self, fsGet_fsErase_ne, ht, hne1, hne2,
                      n1, n2, n3, n4, n5, n6, n7, n8, n9, n10, n11, n12, n13, n14, hg]
                  · simp [FileProcessor.process_file_body, FileProcessor._create_meta_file,
                      FileProcessor._read_file, FileProcessor._write_file,
                      FileProcessor._update_meta_file, FileProcessor._move_to_processed,
                      FileProcessor.renameStep, truthyMsg, fsGet_fsSet_self, fsGet_fsSet_ne,
                      fsGet_fsErase_self, fsGet_fsErase_ne, ht, hne1, hne2,
                      n1, n2, n3, n4, n5, n6, n7, n8, n9, n10, n11, n12, n13, n14, hg]
                  · simp [FileProcessor.process_file_body, FileProcessor._create_meta_file,
                      FileProcessor._read_file, FileProcessor._write_file,
                      FileProcessor._update_meta_file, FileProcessor._move_to_processed,
                      FileProcessor.renameStep, truthyMsg, fsGet_fsSet_self, fsGet_fsSet_ne,
                      fsGet_fsErase_self, fsGet_fsErase_ne, ht, hne1, hne2,
                      n1, n2, n3, n4, n5, n6, n7, n8, n9, n10, n11, n12, n13, n14, hg]
                | false =>
                  right; right; right; right; right; left
                  refine ⟨?_, ?_⟩
                  · simp [FileProcessor.process_file_body, FileProcessor._create_meta_file,
                      FileProcessor._read_file, FileProcessor._write_file,
                      FileProcessor._update_meta_file, FileProcessor._move_to_processed,
                      FileProcessor.renameStep, truthyMsg, fsGet_fsSet_self, fsGet_fsSet_ne,
                      fsGet_fsErase_self, fsGet_fsErase_ne, ht, hne1, hne2,
                      n1, n2, n3, n4, n5, n6, n7, n8, n9, n10, n11, n12, n13, n14, hg]
                  · simp [FileProcessor.process_file_body, FileProcessor._create_meta_file,
                      FileProcessor._read_file, FileProcessor._write_file,
                      FileProcessor._update_meta_file, FileProcessor._move_to_processed,
                      FileProcessor.renameStep, truthyMsg, fsGet_fsSet_self, fsGet_fsSet_ne,
                      fsGet_fsErase_self, fsGet_fsErase_ne, ht, hne1, hne2,
                      n1, n2, n3, n4, n5, n6, n7, n8, n9, n10, n11, n12, n13, n14, hg]
              | true =>
                cases r1Ok with
                | false =>
                  cases uE with
                  | true =>
                    right; right; right; right; right; right; right; right
                    refine ⟨?_, ?_, ⟨c, ?_⟩⟩
                    · simp [FileProcessor.process_file_body, FileProcessor._create_meta_file,
                        FileProcessor._read_file, FileProcessor._write_file,
                        FileProcessor._update_meta_file, FileProcessor._move_to_processed,
                        FileProcessor.renameStep, truthyMsg, fsGet_fsSet_self, fsGet_fsSet_ne,
                        fsGet_fsErase_self, fsGet_fsErase_ne, ht, hne1, hne2,
                        n1, n2, n3, n4, n5, n6, n7, n8, n9, n10, n11, n12, n13, n14, hg]
                    · simp [FileProcessor.process_file_body, FileProcessor._create_meta_file,
                        FileProcessor._read_file, FileProcessor._write_file,
                        FileProcessor._update_meta_file, FileProcessor._move_to_processed,
                        FileProcessor.renameStep, truthyMsg, fsGet_fsSet_self, fsGet_fsSet_ne,
                        fsGet_fsErase_self, fsGet_fsErase_ne, ht, hne1, hne2,
                        n1, n2, n3, n4, n5, n6, n7, n8, n9, n10, n11, n12, n13, n14, hg]
                    · simp [FileProcessor.process_file_body, FileProcessor._create_meta_file,
                        FileProcessor._read_file, FileProcessor._write_file,
                        FileProcessor._update_meta_file, FileProcessor._move_to_processed,
                        FileProcessor.renameStep, truthyMsg, fsGet_fsSet_self, fsGet_fsSet_ne,
                        fsGet_fsErase_self, fsGet_fsErase_ne, ht, hne1, hne2,
                        n1, n2, n3, n4, n5, n6, n7, n8, n9, n10, n11, n12, n13, n14, hg]
                  | false =>
                    right; right; right; right; right; left
                    refine ⟨?_, ?_⟩
                    · simp [FileProcessor.process_file_body, FileProcessor._create_meta_file,
                        FileProcessor._read_file, FileProcessor._write_file,
                        FileProcessor._update_meta_file, FileProcessor._move_to_processed,
                        FileProcessor.renameStep, truthyMsg, fsGet_fsSet_self, fsGet_fsSet_ne,
                        fsGet_fsErase_self, fsGet_fsErase_ne, ht, hne1, hne2,
                        n1, n2, n3, n4, n5, n6, n7, n8, n9, n10, n11, n12, n13, n14, hg]
                    · simp [FileProcessor.process_file_body, FileProcessor._create_meta_file,
                        FileProcessor._read_file, FileProcessor._write_file,
                        FileProcessor._update_meta_file, FileProcessor._move_to_processed,
                        FileProcessor.renameStep, truthyMsg, fsGet_fsSet_self, fsGet_fsSet_ne,
                        fsGet_fsErase_self, fsGet_fsErase_ne, ht, hne1, hne2,
                        n1, n2, n3, n4, n5, n6, n7, n8, n9, n10, n11, n12, n13, n14, hg]
                | true =>
                  cases r2Ok with
                  | false =>
                    cases uE with
                    | true =>
                      right; right; right; right; right; right; right; right
                      refine ⟨?_, ?_, ⟨c, ?_⟩⟩
                      · simp [FileProcessor.process_file_body, FileProcessor._create_meta_file,
                          FileProcessor._read_file, FileProcessor._write_file,
                          FileProcessor._update_meta_file, FileProcessor._move_to_processed,
                          FileProcessor.renameStep, truthyMsg, fsGet_fsSet_self, fsGet_fsSet_ne,
                          fsGet_fsErase_self, fsGet_fsErase_ne, ht, hne1, hne2,
                          n1, n2, n3, n4, n5, n6, n7, n8, n9, n10, n11, n12, n13, n14, hg]
                      · simp [FileProcessor.process_file_body, FileProcessor._create_meta_file,
                          FileProcessor._read_file, FileProcessor._write_file,
                          FileProcessor._update_meta_file, FileProcessor._move_to_processed,
                          FileProcessor.renameStep, truthyMsg, fsGet_fsSet_self, fsGet_fsSet_ne,
                          fsGet_fsErase_self, fsGet_fsErase_ne, ht, hne1, hne2,
                          n1, n2, n3, n4, n5, n6, n7, n8, n9, n10, n11, n12, n13, n14, hg]
                      · simp [FileProcessor.process_file_body, FileProcessor._create_meta_file,
                          FileProcessor._read_file, FileProcessor._write_file,
                          FileProcessor._update_meta_file, FileProcessor._move_to_processed,
                          FileProcessor.renameStep, truthyMsg, fsGet_fsSet_self, fsGet_fsSet_ne,
                          fsGet_fsErase_self, fsGet_fsErase_ne, ht, hne1, hne2,
                          n1, n2, n3, n4, n5, n6, n7, n8, n9, n10, n11, n12, n13, n14, hg]
                    | false =>
                      right; right; right; right; right; left
                      refine ⟨?_, ?_⟩
                      · simp [FileProcessor.process_file_body, FileProcessor._create_meta_file,
                          FileProcessor._read_file, FileProcessor._write_file,
                          FileProcessor._update_meta_file, FileProcessor._move_to_processed,
                          FileProcessor.renameStep, truthyMsg, fsGet_fsSet_self, fsGet_fsSet_ne,
                          fsGet_fsErase_self, fsGet_fsErase_ne, ht, hne1, hne2,
                          n1, n2, n3, n4, n5, n6, n7, n8, n9, n10, n11, n12, n13, n14, hg]
                      · simp [FileProcessor.process_file_body, FileProcessor._create_meta_file,
                          FileProcessor._read_file, FileProcessor._write_file,
                          FileProcessor._update_meta_file, FileProcessor._move_to_processed,
                          FileProcessor.renameStep, truthyMsg, fsGet_fsSet_self, fsGet_fsSet_ne,
                          fsGet_fsErase_self, fsGet_fsErase_ne, ht, hne1, hne2,
                          n1, n2, n3, n4, n5, n6, n7, n8, n9, n10, n11, n12, n13, n14, hg]
                  | true =>
                    cases uOk with
                    | false =>
                      cases uE with
                      | true =>
                        right; right; right; right; right; right; right; right
                        refine ⟨?_, ?_, ⟨c, ?_⟩⟩
                        · simp [FileProcessor.process_file_body, FileProcessor._create_meta_file,
                            FileProcessor._read_file, FileProcessor._write_file,
                            FileProcessor._update_meta_file, FileProcessor._move_to_processed,
                            FileProcessor.renameStep, truthyMsg, fsGet_fsSet_self, fsGet_fsSet_ne,
                            fsGet_fsErase_self, fsGet_fsErase_ne, ht, hne1, hne2,
                            n1, n2, n3, n4, n5, n6, n7, n8, n9, n10, n11, n12, n13, n14, hg]
                        · simp [FileProcessor.process_file_body, FileProcessor._create_meta_file,
                            FileProcessor._read_file, FileProcessor._write_file,
                            FileProcessor._update_meta_file, FileProcessor._move_to_processed,
                            FileProcessor.renameStep, truthyMsg, fsGet_fsSet_self, fsGet_fsSet_ne,
                            fsGet_fsErase_self, fsGet_fsErase_ne, ht, hne1, hne2,
                            n1, n2, n3, n4, n5, n6, n7, n8, n9, n10, n11, n12, n13, n14, hg]
                        · simp [FileProcessor.process_file_body, FileProcessor._create_meta_file,
                            FileProcessor._read_file, FileProcessor._write_file,
                            FileProcessor._update_meta_file, FileProcessor._move_to_processed,
                            FileProcessor.renameStep, truthyMsg, fsGet_fsSet_self, fsGet_fsSet_ne,
                            fsGet_fsErase_self, fsGet_fsErase_ne, ht, hne1, hne2,
                            n1, n2, n3, n4, n5, n6, n7, n8, n9, n10, n11, n12, n13, n14, hg]
                      | false =>
                        right; right; right; right; right; left
                        refine ⟨?_, ?_⟩
                        · simp [FileProcessor.process_file_body, FileProcessor._create_meta_file,
                            FileProcessor._read_file, FileProcessor._write_file,
                            FileProcessor._update_meta_file, FileProcessor._move_to_processed,
                            FileProcessor.renameStep, truthyMsg, fsGet_fsSet_self, fsGet_fsSet_ne,
                            fsGet_fsErase_self, fsGet_fsErase_ne, ht, hne1, hne2,
                            n1, n2, n3, n4, n5, n6, n7, n8, n9, n10, n11, n12, n13, n14, hg]
                        · simp [FileProcessor.process_file_body, FileProcessor._create_meta_file,
                            FileProcessor._read_file, FileProcessor._write_file,
                            FileProcessor._update_meta_file, FileProcessor._move_to_processed,
                            FileProcessor.renameStep, truthyMsg, fsGet_fsSet_self, fsGet_fsSet_ne,
                            fsGet_fsErase_self, fsGet_fsErase_ne, ht, hne1, hne2,
                            n1, n2, n3, n4, n5, n6, n7, n8, n9, n10, n11, n12, n13, n14, hg]
                    | true =>
                      right; right; right; right; right; right; right; left
                      refine ⟨?_, ?_, ⟨c, rfl, ?_, ?_, ?_⟩, ?_⟩
                      · simp [FileProcessor.process_file_body, FileProcessor._create_meta_file,
                          FileProcessor._read_file, FileProcessor._write_file,
                          FileProcessor._update_meta_file, FileProcessor._move_to_processed,
                          FileProcessor.renameStep, truthyMsg, fsGet_fsSet_self, fsGet_fsSet_ne,
                          fsGet_fsErase_self, fsGet_fsErase_ne, ht, hne1, hne2,
                          n1, n2, n3, n4, n5, n6, n7, n8, n9, n10, n11, n12, n13, n14, hg]
                      · simp [FileProcessor.process_file_body, FileProcessor._create_meta_file,
                          FileProcessor._read_file, FileProcessor._write_file,
                          FileProcessor._update_meta_file, FileProcessor._move_to_processed,
                          FileProcessor.renameStep, truthyMsg, fsGet_fsSet_self, fsGet_fsSet_ne,
                          fsGet_fsErase_self, fsGet_fsErase_ne, ht, hne1, hne2,
                          n1, n2, n3, n4, n5, n6, n7, n8, n9, n10, n11, n12, n13, n14, hg]
                      · simp [FileProcessor.process_file_body, FileProcessor._create_meta_file,
                          FileProcessor._read_file, FileProcessor._write_file,
                          FileProcessor._update_meta_file, FileProcessor._move_to_processed,
                          FileProcessor.renameStep, truthyMsg, fsGet_fsSet_self, fsGet_fsSet_ne,
                          fsGet_fsErase_self, fsGet_fsErase_ne, ht, hne1, hne2,
                          n1, n2, n3, n4, n5, n6, n7, n8, n9, n10, n11, n12, n13, n14, hg]
                      · simp [FileProcessor.process_file_body, FileProcessor._create_meta_file,
                          FileProcessor._read_file, FileProcessor._write_file,
                          FileProcessor._update_meta_file, FileProcessor._move_to_processed,
                          FileProcessor.renameStep, truthyMsg, fsGet_fsSet_self, fsGet_fsSet_ne,
                          fsGet_fsErase_self, fsGet_fsErase_ne, ht, hne1, hne2,
                          n1, n2, n3, n4, n5, n6, n7, n8, n9, n10, n11, n12, n13, n14, hg]
                      · simp [FileProcessor.process_file_body, FileProcessor._create_meta_file,
                          FileProcessor._read_file, FileProcessor._write_file,
                          FileProcessor._update_meta_file, FileProcessor._move_to_processed,
                          FileProcessor.renameStep, truthyMsg, fsGet_fsSet_self, fsGet_fsSet_ne,
                          fsGet_fsErase_self, fsGet_fsErase_ne, ht, hne1, hne2,
                          n1, n2, n3, n4, n5, n6, n7, n8, n9, n10, n11, n12, n13, n14, hg]
                      · simp [FileProcessor.process_file_body, FileProcessor._create_meta_file,
                          FileProcessor._read_file, FileProcessor._write_file,
                          FileProcessor._update_meta_file, FileProcessor._move_to_processed,
                          FileProcessor.renameStep, truthyMsg, fsGet_fsSet_self, fsGet_fsSet_ne,
                          fsGet_fsErase_self, fsGet_fsErase_ne, ht, hne1, hne2,
                          n1, n2, n3, n4, n5, n6, n7, n8, n9, n10, n11, n12, n13, n14, hg]

theorem process_file_cases (o : Oracle) (st0 : St) (p : FPath)
    (hx1 : p.suffix ≠ ".meta") (hx2 : p.suffix ≠ ".processed")
    (h0 : fsGet st0.fs (p.withSuffix ".meta") = none)
    (ht : st0.trace = []) :
    ((FileProcessor.process_file o st0 p).1 = false ∧
      (FileProcessor.process_file o st0 p).2.trace = [] ∧
      fsGet (FileProcessor.process_file o st0 p).2.fs (p.withSuffix ".meta") = none) ∨
    ((FileProcessor.process_file o st0 p).1 = false ∧
      (FileProcessor.process_file o st0 p).2.trace = ["processing", "failed"] ∧
      (∃ e : Entry, fsGet (FileProcessor.process_file o st0 p).2.fs p = some e) ∧
      (∃ lu : Nat, fsGet (FileProcessor.process_file o st0 p).2.fs (p.withSuffix ".meta") =
        some (.meta ⟨"failed", lu, p.name, some "Could not read file"⟩))) ∨
    ((FileProcessor.process_file o st0 p).1 = false ∧
      (FileProcessor.process_file o st0 p).2.trace = ["processing", "failed"] ∧
      (∃ e : Entry, fsGet (FileProcessor.process_file o st0 p).2.fs p = some e) ∧
      (∃ lu : Nat, fsGet (FileProcessor.process_file o st0 p).2.fs (p.withSuffix ".meta") =
        some (.meta ⟨"failed", lu, p.name, some "Could not write processed file"⟩))) ∨
    ((FileProcessor.process_file o st0 p).1 = false ∧
      (FileProcessor.process_file o st0 p).2.trace = ["processing", "completed", "failed"]) ∨
    ((FileProcessor.process_file o st0 p).1 = true ∧
      (FileProcessor.process_file o st0 p).2.trace = ["processing", "completed"] ∧
      (∃ c : String,
        fsGet (FileProcessor.process_file o st0 p).2.fs (outPath p) = some (.plain c) ∧
        fsGet (FileProcessor.process_file o st0 p).2.fs (outPath (p.withSuffix ".processed")) = some (.plain (pyUpper c))) ∧
      fsGet (FileProcessor.process_file o st0 p).2.fs (p.withSuffix ".meta") = none) ∨
    ((FileProcessor.process_file o st0 p).1 = false ∧ (FileProcessor.process_file o st0 p).2.trace = ["processing"]) ∨
    ((FileProcessor.process_file o st0 p).1 = false ∧ (FileProcessor.process_file o st0 p).2.trace = ["processing", "completed"]) ∨
    ((FileProcessor.process_file o st0 p).1 = true ∧
      (FileProcessor.process_file o st0 p).2.trace = ["processing"] ∧
      (∃ c : String,
        fsGet (FileProcessor.process_file o st0 p).2.fs (outPath p) = some (.plain c) ∧
        fsGet (FileProcessor.process_file o st0 p).2.fs (outPath (p.withSuffix ".processed")) = some (.plain (pyUpper c))) ∧
      fsGet (FileProcessor.process_file o st0 p).2.fs (p.withSuffix ".meta") = none) ∨
    ((FileProcessor.process_file o st0 p).1 = false ∧
      (FileProcessor.process_file o st0 p).2.trace = ["processing", "failed"] ∧
      (∃ c : String, (FileProcessor.process_file o st0 p).2.writes =
        st0.writes ++ [(p.withSuffix ".processed", pyUpper c)])) := by
  have n1 : p ≠ p.withSuffix ".meta" := FPath.ne_of_suffix hx1
  have n2 : p.withSuffix ".meta" ≠ p := n1.symm
  cases htOk : o.touchOk with
  | false =>
    left
    simp [FileProcessor.process_file, _touch, htOk, ht, h0]
  | true =>
    rcases hg0 : fsGet st0.fs p with _ | e0
    · have hrun : FileProcessor.process_file o st0 p =
          FileProcessor.process_file_body o
            { st0 with fs := fsSet st0.fs p (.plain "") } p := by
        simp [FileProcessor.process_file, _touch, htOk, hg0]
      have hbody := process_file_body_cases o
        { st0 with fs := fsSet st0.fs p (.plain "") } p hx1 hx2
        (by simp [fsGet_fsSet_ne, n2, h0]) (by simpa using ht)
      rw [hrun]
      rcases hbody with hb | ⟨hb1, hb2, hfr, hw, lu, hm⟩ | ⟨hb1, hb2, hfr, hw, lu, hm⟩ |
        hb | ⟨hb1, hb2, ⟨c, hc0, ho1, ho2, hw⟩, hm⟩ | hb | hb |
        ⟨hb1, hb2, ⟨c, hc0, ho1, ho2, hw⟩, hm⟩ | ⟨hb1, hb2, c, hw⟩
      · left
        rw [hb]
        exact ⟨rfl, by simpa using ht, by simp [fsGet_fsSet_ne, n2, h0]⟩
      · right; left
        exact ⟨hb1, hb2, ⟨.plain "", by rw [hfr p n1]; simp [fsGet_fsSet_self]⟩, ⟨lu, hm⟩⟩
      · right; right; left
        exact ⟨hb1, hb2, ⟨.plain "", by rw [hfr p n1]; simp [fsGet_fsSet_self]⟩, ⟨lu, hm⟩⟩
      · right; right; right; left
        exact hb
      · right; right; right; right; left
        exact ⟨hb1, hb2, ⟨c, ho1, ho2⟩, hm⟩
      · right; right; right; right; right; left
        exact hb
      · right; right; right; right; right; right; left
        exact hb
      · right; right; right; right; right; right; right; left
        exact ⟨hb1, hb2, ⟨c, ho1, ho2⟩, hm⟩
      · right; right; right; right; right; right; right; right
        exact ⟨hb1, hb2, ⟨c, by simpa using hw⟩⟩
    · have hrun : FileProcessor.process_file o st0 p =
          FileProcessor.process_file_body o st0 p := by
        simp [FileProcessor.process_file, _touch, htOk, hg0]
      have hbody := process_file_body_cases o st0 p hx1 hx2 h0 ht
      rw [hrun]
      rcases hbody with hb | ⟨hb1, hb2, hfr, hw, lu, hm⟩ | ⟨hb1, hb2, hfr, hw, lu, hm⟩ |
        hb | ⟨hb1, hb2, ⟨c, hc0, ho1, ho2, hw⟩, hm⟩ | hb | hb |
        ⟨hb1, hb2, ⟨c, hc0, ho1, ho2, hw⟩, hm⟩ | ⟨hb1, hb2, c, hw⟩
      · left
        rw [hb]
        exact ⟨rfl, ht, h0⟩
      · right; left
        exact ⟨hb1, hb2, ⟨e0, by rw [hfr p n1]; exact hg0⟩, ⟨lu, hm⟩⟩
      · right; right; left
        exact ⟨hb1, hb2, ⟨e0, by rw [hfr p n1]; exact hg0⟩, ⟨lu, hm⟩⟩
      · right; right; right; left
        exact hb
      · right; right; right; right; left
        exact ⟨hb1, hb2, ⟨c, ho1, ho2⟩, hm⟩
      · right; right; right; right; right; left
        exact hb
      · right; right; right; right; right; right; left
        exact hb
      · right; right; right; right; right; right; right; left
        exact ⟨hb1, hb2, ⟨c, ho1, ho2⟩, hm⟩
      · right; right; right; right; right; right; right; right
        exact ⟨hb1, hb2, ⟨c, hw⟩⟩

/-! Frame lemmas: metadata updates and the move step never touch the write
log; the move step never touches the status trace. -/

theorem update_meta_writes (ok : Bool) (st : St) (m : FPath) (s : String)
    (em : Option String) :
    (FileProcessor._update_meta_file ok st m s em).writes = st.writes := by
  unfold FileProcessor._update_meta_file
  rcases fsGet st.fs m with _ | e
  · rfl
  · cases e with
    | plain c => rfl
    | meta mm => cases ok <;> rfl

theorem renameStep_writes (st : St) (src dst : FPath) :
    (FileProcessor.renameStep st src dst).2.writes = st.writes := by
  unfold FileProcessor.renameStep
  rcases fsGet st.fs src with _ | e <;> rfl

theorem move_writes (o : Oracle) (st : St) (a b m : FPath) :
    (FileProcessor._move_to_processed o st a b m).2.writes = st.writes := by
  unfold FileProcessor._move_to_processed
  rcases hmk : o.mkdirOk with _ | _
  · simp [hmk]
  · rcases hr1 : o.renameOrigOk with _ | _
    · simp [hmk, hr1]
    · rcases h1 : FileProcessor.renameStep st a (outPath a) with ⟨e1, s1⟩
      have hw1 : s1.writes = st.writes := by
        have := renameStep_writes st a (outPath a); rw [h1] at this; exact this
      cases e1 with
      | some e => simp [hmk, hr1, h1, hw1]
      | none =>
        rcases hr2 : o.renameProcOk with _ | _
        · simp [hmk, hr1, h1, hr2, hw1]
        · rcases h2 : FileProcessor.renameStep s1 b (outPath b) with ⟨e2, s2⟩
          have hw2 : s2.writes = st.writes := by
            have := renameStep_writes s1 b (outPath b); rw [h2] at this
            rw [this, hw1]
          cases e2 with
          | some e => simp [hmk, hr1, h1, hr2, h2, hw2]
          | none =>
            rcases h3 : fsGet s2.fs m with _ | e3
            · simp [hmk, hr1, h1, hr2, h2, h3, hw2]
            · rcases hu : o.unlinkOk with _ | _ <;>
                simp [hmk, hr1, h1, hr2, h2, h3, hu, hw2]

/-! Counting sentinels. -/

theorem countSentinels_append (a b : List (Option FPath)) :
    countSentinels (a ++ b) = countSentinels a + countSentinels b := by
  simp [countSentinels, List.filter_append]

theorem countSentinels_replicate (n : Nat) :
    countSentinels (List.replicate n none) = n := by
  induction n with
  | zero => rfl
  | succ k ih =>
    rw [List.replicate]
    rw [show countSentinels (none :: List.replicate k none) =
      countSentinels (List.replicate k none) + 1 by simp [countSentinels, List.filter], ih]

/-- Claim C5 counterexample: `_create_meta_file` succeeds on a path that already
holds a metadata record, replacing the old record (status `failed`, its old
error text) with the fresh `processing` one — it does not fail and does not
preserve the existing record. -/
theorem create_meta_file_overwrites_existing :
    fsGet stStaleMeta.fs ⟨"input", "a", ".meta"⟩ =
      some (.meta ⟨"failed", 7, "a.txt", some "old error"⟩) ∧
    (FileProcessor._create_meta_file true "boom" stStaleMeta ⟨"input", "a", ".meta"⟩
      "a.txt" "processing" none).1 = none ∧
    fsGet (FileProcessor._create_meta_file true "boom" stStaleMeta ⟨"input", "a", ".meta"⟩
      "a.txt" "processing" none).2.fs ⟨"input", "a", ".meta"⟩ =
      some (.meta ⟨"processing", 10, "a.txt", none⟩) :=
  ⟨by decide, by decide, by decide⟩

/-- Claim C5 (amended): the Metadata Store create operation fails exactly when the
underlying write fails; when the write succeeds it writes a fresh record at
the target path, overwriting any record already there (existence of a prior
record never makes it fail). -/
theorem create_meta_file_semantics (err : String) (st : St) (mp : FPath) (fn s : String) :
    ((FileProcessor._create_meta_file true err st mp fn s none).1 = none ∧
      fsGet (FileProcessor._create_meta_file true err st mp fn s none).2.fs mp =
        some (.meta ⟨s, st.clock, fn, none⟩)) ∧
    ((FileProcessor._create_meta_file false err st mp fn s none).1 = some err ∧
      (FileProcessor._create_meta_file false err st mp fn s none).2 = st) := by
  refine ⟨⟨?_, ?_⟩, ?_, ?_⟩ <;>
    simp [FileProcessor._create_meta_file, truthyMsg, fsGet_fsSet_self]

/-- Claim C7: errors inside `process_file` are returned as `False`, never raised
(the embedding is a total function into `Bool × St`); the worker loop makes
exactly one `process_file` call per task dequeued before the sentinel,
whatever the outcome of each call, and in particular after a task whose processing
failed it continues with the remaining queue items. -/
theorem worker_continues_after_each_task :
    (∀ (items : List FileProcessor.QItem) (st : St),
      (FileProcessor.workerRun items st).2.length = tasksBeforeSentinel items) ∧
    (∀ (o : Oracle) (p : FPath) (rest : List FileProcessor.QItem) (st : St),
      (FileProcessor.process_file o st p).1 = false →
      FileProcessor.workerRun (FileProcessor.QItem.task o p :: rest) st =
        ((FileProcessor.workerRun rest (FileProcessor.process_file o st p).2).1,
          (FileProcessor.process_file o st p).1 ::
            (FileProcessor.workerRun rest (FileProcessor.process_file o st p).2).2)) := by
  constructor
  · intro items
    induction items with
    | nil => intro st; rfl
    | cons hd tl ih =>
      intro st
      cases hd with
      | task o p => simp [FileProcessor.workerRun, tasksBeforeSentinel, ih]
      | sentinel => rfl
      | timeout => simp [FileProcessor.workerRun, tasksBeforeSentinel, ih]
  · intro o p rest st _
    rfl

/-- Claim C7 witness: a concrete failing task (its initial touch raises) is
processed without stopping the loop, and the worker goes on to the rest of
the queue. -/
theorem worker_continues_after_each_task_witness :
    (FileProcessor.process_file oTouchFail stEmpty pA).1 = false ∧
    FileProcessor.workerRun (FileProcessor.QItem.task oTouchFail pA :: []) stEmpty =
      ((FileProcessor.workerRun [] (FileProcessor.process_file oTouchFail stEmpty pA).2).1,
        (FileProcessor.process_file oTouchFail stEmpty pA).1 ::
          (FileProcessor.workerRun [] (FileProcessor.process_file oTouchFail stEmpty pA).2).2) :=
  ⟨by decide, worker_continues_after_each_task.2 oTouchFail pA [] stEmpty (by decide)⟩

/-- Claim C8: `stop` enqueues exactly one sentinel (`None`) per worker in the pool
— the queue is extended by `replicate processors none` and the sentinel count
grows by exactly the pool size — and a worker that dequeues the sentinel
exits its loop at once (it is never reinserted: the worker model only
consumes queue items). -/
theorem shutdown_enqueues_one_sentinel_per_worker
    (s : FileProcessingSystem) (st : St) (rest : List FileProcessor.QItem) :
    (FileProcessingSystem.stop s).queue = s.queue ++ List.replicate s.processors none ∧
    countSentinels (FileProcessingSystem.stop s).queue =
      countSentinels s.queue + s.processors ∧
    FileProcessor.workerRun (FileProcessor.QItem.sentinel :: rest) st = (st, []) := by
  have hq : (FileProcessingSystem.stop s).queue =
      s.queue ++ List.replicate s.processors none := by
    unfold FileProcessingSystem.stop
    cases hob : s.observer <;> simp [hob]
  refine ⟨hq, ?_, rfl⟩
  rw [hq, countSentinels_append, countSentinels_replicate]

/-- Claim C9: calling `stop` before `start` is a no-op (the freshly constructed
system is returned unchanged: no observer to stop, zero workers to signal or
join), and a second `stop` is equally well-defined — it clears `running` and
merely appends another batch of sentinels, without error or hang. -/
theorem stop_idempotent_and_noop_before_start :
    FileProcessingSystem.stop FileProcessingSystem.init = FileProcessingSystem.init ∧
    (∀ s : FileProcessingSystem,
      (FileProcessingSystem.stop (FileProcessingSystem.stop s)).running = false ∧
      (FileProcessingSystem.stop (FileProcessingSystem.stop s)).queue =
        s.queue ++ List.replicate s.processors none ++ List.replicate s.processors none) := by
  constructor
  · decide
  · intro s
    constructor
    · cases hob : s.observer <;> simp [FileProcessingSystem.stop, hob]
    · cases hob : s.observer <;> simp [FileProcessingSystem.stop, hob]

/-- Claim C1 counterexample: in a run where the rename of the processed file fails,
the Metadata Record does reach status `completed` (it is in the status
trace), yet the processed file is not in the output directory and the
Metadata Record still exists afterwards. -/
theorem completed_status_without_relocation :
    "completed" ∈ (FileProcessor.process_file oRenFail stA pA).2.trace ∧
    fsGet (FileProcessor.process_file oRenFail stA pA).2.fs
      (outPath (pA.withSuffix ".processed")) = none ∧
    fsGet (FileProcessor.process_file oRenFail stA pA).2.fs (pA.withSuffix ".meta") ≠ none :=
  ⟨by decide, by decide, by decide⟩

/-- Claim C1 (amended): for every Task whose Metadata Record reaches `completed`
and whose subsequent relocation succeeds — equivalently, whose `process_file`
invocation returns success — both the original and the processed file exist
in the output directory and the Metadata Record no longer exists. -/
theorem process_file_success_completion_invariant (o : Oracle) (st0 : St) (p : FPath)
    (hx1 : p.suffix ≠ ".meta") (hx2 : p.suffix ≠ ".processed")
    (h0 : fsGet st0.fs (p.withSuffix ".meta") = none) (ht : st0.trace = [])
    (hs : (FileProcessor.process_file o st0 p).1 = true) :
    (∃ c : String,
      fsGet (FileProcessor.process_file o st0 p).2.fs (outPath p) = some (.plain c)) ∧
    (∃ c : String, fsGet (FileProcessor.process_file o st0 p).2.fs
      (outPath (p.withSuffix ".processed")) = some (.plain c)) ∧
    fsGet (FileProcessor.process_file o st0 p).2.fs (p.withSuffix ".meta") = none := by
  rcases process_file_cases o st0 p hx1 hx2 h0 ht with ⟨h1, _⟩ | ⟨h1, _⟩ | ⟨h1, _⟩ |
    ⟨h1, _⟩ | ⟨_, _, ⟨c, ho1, ho2⟩, hm⟩ | ⟨h1, _⟩ | ⟨h1, _⟩ |
    ⟨_, _, ⟨c, ho1, ho2⟩, hm⟩ | ⟨h1, _⟩
  · rw [h1] at hs; exact absurd hs (by decide)
  · rw [h1] at hs; exact absurd hs (by decide)
  · rw [h1] at hs; exact absurd hs (by decide)
  · rw [h1] at hs; exact absurd hs (by decide)
  · exact ⟨⟨c, ho1⟩, ⟨pyUpper c, ho2⟩, hm⟩
  · rw [h1] at hs; exact absurd hs (by decide)
  · rw [h1] at hs; exact absurd hs (by decide)
  · exact ⟨⟨c, ho1⟩, ⟨pyUpper c, ho2⟩, hm⟩
  · rw [h1] at hs; exact absurd hs (by decide)

/-- Claim C1 witness: the all-success run on `input/a.txt` returns success, and the
completion invariant holds for it. -/
theorem process_file_success_completion_invariant_witness :
    (FileProcessor.process_file allOk stA pA).1 = true ∧
    ((∃ c : String,
      fsGet (FileProcessor.process_file allOk stA pA).2.fs (outPath pA) = some (.plain c)) ∧
    (∃ c : String, fsGet (FileProcessor.process_file allOk stA pA).2.fs
      (outPath (pA.withSuffix ".processed")) = some (.plain c)) ∧
    fsGet (FileProcessor.process_file allOk stA pA).2.fs (pA.withSuffix ".meta") = none) :=
  ⟨by decide, process_file_success_completion_invariant allOk stA pA (by decide) (by decide)
    (by decide) rfl (by decide)⟩

/-- Claim C2 counterexample: in a run where the rename of the processed file fails,
the sequence of statuses written to the Metadata Record is `processing`,
`completed`, `failed` — a terminal state is written and then the status is
changed again, an order the claim forbids. -/
theorem status_written_after_completed :
    (FileProcessor.process_file oRenFail stA pA).2.trace =
      ["processing", "completed", "failed"] := by decide

/-- Claim C2 (amended): the sequence of statuses successfully written to the
Metadata Record of a fresh Task is one of: nothing (the record was never
created), `processing` alone (a later update was attempted but its own
rewrite failed and was swallowed), `processing` then `failed`, `processing`
then `completed`, or — when an error strikes during relocation after
completion was recorded — `processing` then `completed` then `failed`.
`processing` always comes first and nothing is ever written after `failed`. -/
theorem status_trace_shapes (o : Oracle) (st0 : St) (p : FPath)
    (hx1 : p.suffix ≠ ".meta") (hx2 : p.suffix ≠ ".processed")
    (h0 : fsGet st0.fs (p.withSuffix ".meta") = none) (ht : st0.trace = []) :
    (FileProcessor.process_file o st0 p).2.trace = [] ∨
    (FileProcessor.process_file o st0 p).2.trace = ["processing"] ∨
    (FileProcessor.process_file o st0 p).2.trace = ["processing", "failed"] ∨
    (FileProcessor.process_file o st0 p).2.trace = ["processing", "completed"] ∨
    (FileProcessor.process_file o st0 p).2.trace =
      ["processing", "completed", "failed"] := by
  rcases process_file_cases o st0 p hx1 hx2 h0 ht with ⟨_, h2, _⟩ | ⟨_, h2, _⟩ |
    ⟨_, h2, _⟩ | ⟨_, h2⟩ | ⟨_, h2, _⟩ | ⟨_, h2⟩ | ⟨_, h2⟩ | ⟨_, h2, _⟩ | ⟨_, h2, _⟩
  · exact Or.inl h2
  · exact Or.inr (Or.inr (Or.inl h2))
  · exact Or.inr (Or.inr (Or.inl h2))
  · exact Or.inr (Or.inr (Or.inr (Or.inr h2)))
  · exact Or.inr (Or.inr (Or.inr (Or.inl h2)))
  · exact Or.inr (Or.inl h2)
  · exact Or.inr (Or.inr (Or.inr (Or.inl h2)))
  · exact Or.inr (Or.inl h2)
  · exact Or.inr (Or.inr (Or.inl h2))

/-- Claim C2 witness: the trace-shape theorem applied to the all-success run on
`input/a.txt`. -/
theorem status_trace_shapes_witness :
    (FileProcessor.process_file allOk stA pA).2.trace = [] ∨
    (FileProcessor.process_file allOk stA pA).2.trace = ["processing"] ∨
    (FileProcessor.process_file allOk stA pA).2.trace = ["processing", "failed"] ∨
    (FileProcessor.process_file allOk stA pA).2.trace = ["processing", "completed"] ∨
    (FileProcessor.process_file allOk stA pA).2.trace =
      ["processing", "completed", "failed"] :=
  status_trace_shapes allOk stA pA (by decide) (by decide) (by decide) rfl

/-- Claim C3 counterexample: in a run where the rename of the processed file fails,
the Metadata Record ends in status `failed`, yet the original file is no
longer in the input directory — it has already been relocated to the output
directory. -/
theorem failed_status_with_original_relocated :
    fsGet (FileProcessor.process_file oRenFail stA pA).2.fs (pA.withSuffix ".meta") =
      some (.meta ⟨"failed", 2, "a.txt", some "rename failed"⟩) ∧
    fsGet (FileProcessor.process_file oRenFail stA pA).2.fs pA = none ∧
    fsGet (FileProcessor.process_file oRenFail stA pA).2.fs (outPath pA) =
      some (.plain "hello") :=
  ⟨by decide, by decide, by decide⟩

/-- Claim C3 (amended): for every fresh Task that reaches `failed` without
having reached `completed` (its status sequence is `processing` then
`failed`) and for which no processed output was ever written (the failure
struck at the read step or at the processed-file write step, before any
relocation), the original file is still present in the input directory and
the Metadata Record exists with status `failed` and a non-empty
`error_message`. The extra condition is forced: when the `completed` rewrite
silently fails and relocation then raises, the same `processing → failed`
sequence can appear with the original already moved away. -/
theorem failed_before_completed_invariant (o : Oracle) (st0 : St) (p : FPath)
    (hx1 : p.suffix ≠ ".meta") (hx2 : p.suffix ≠ ".processed")
    (h0 : fsGet st0.fs (p.withSuffix ".meta") = none) (ht : st0.trace = [])
    (hf : (FileProcessor.process_file o st0 p).2.trace = ["processing", "failed"])
    (hw : (FileProcessor.process_file o st0 p).2.writes = st0.writes) :
    (∃ e : Entry, fsGet (FileProcessor.process_file o st0 p).2.fs p = some e) ∧
    (∃ (lu : Nat) (msg : String),
      fsGet (FileProcessor.process_file o st0 p).2.fs (p.withSuffix ".meta") =
        some (.meta ⟨"failed", lu, p.name, some msg⟩) ∧ msg ≠ "") := by
  rcases process_file_cases o st0 p hx1 hx2 h0 ht with ⟨_, h2, _⟩ |
    ⟨_, _, hp, lu, hm⟩ | ⟨_, _, hp, lu, hm⟩ | ⟨_, h2⟩ | ⟨_, h2, _⟩ | ⟨_, h2⟩ |
    ⟨_, h2⟩ | ⟨_, h2, _⟩ | ⟨_, _, c, hwr⟩
  · exact absurd (h2.symm.trans hf) (by decide)
  · exact ⟨hp, lu, "Could not read file", hm, by decide⟩
  · exact ⟨hp, lu, "Could not write processed file", hm, by decide⟩
  · exact absurd (h2.symm.trans hf) (by decide)
  · exact absurd (h2.symm.trans hf) (by decide)
  · exact absurd (h2.symm.trans hf) (by decide)
  · exact absurd (h2.symm.trans hf) (by decide)
  · exact absurd (h2.symm.trans hf) (by decide)
  · exfalso
    have hlen := congrArg List.length (hw.symm.trans hwr)
    simp at hlen

/-- Claim C3 witness: a run whose read fails satisfies the hypothesis, and the
failure invariant holds for it. -/
theorem failed_before_completed_invariant_witness :
    (FileProcessor.process_file oReadFail stA pA).2.trace = ["processing", "failed"] ∧
    (FileProcessor.process_file oReadFail stA pA).2.writes = stA.writes ∧
    ((∃ e : Entry, fsGet (FileProcessor.process_file oReadFail stA pA).2.fs pA = some e) ∧
    (∃ (lu : Nat) (msg : String),
      fsGet (FileProcessor.process_file oReadFail stA pA).2.fs (pA.withSuffix ".meta") =
        some (.meta ⟨"failed", lu, pA.name, some msg⟩) ∧ msg ≠ "")) :=
  ⟨by decide, by decide, failed_before_completed_invariant oReadFail stA pA (by decide)
    (by decide) (by decide) rfl (by decide) (by decide)⟩

/-- Claim C4: whenever the content of the input file is read successfully (and the
processed-file write succeeds in being attempted), the only content ever
written is to the sibling path with suffix `.processed`, and it is exactly
the uppercase fold of the content that was read. -/
theorem processed_write_is_uppercase (o : Oracle) (st0 : St) (p : FPath) (c : String)
    (hx1 : p.suffix ≠ ".meta") (hx2 : p.suffix ≠ ".processed")
    (htOk : o.touchOk = true) (hcOk : o.createOk = true)
    (hrOk : o.readOk = true) (hwOk : o.writeOk = true)
    (hread : fsGet st0.fs p = some (.plain c)) :
    (FileProcessor.process_file o st0 p).2.writes =
      st0.writes ++ [(p.withSuffix ".processed", pyUpper c)] := by
  have n1 : p ≠ p.withSuffix ".meta" := FPath.ne_of_suffix hx1
  have n2 : p.withSuffix ".meta" ≠ p := n1.symm
  have n3 : p ≠ p.withSuffix ".processed" := FPath.ne_of_suffix hx2
  have n4 : p.withSuffix ".processed" ≠ p := n3.symm
  have n5 : p.withSuffix ".meta" ≠ p.withSuffix ".processed" :=
    FPath.ne_of_suffix (show (".meta" : String) ≠ ".processed" by decide)
  have n6 : p.withSuffix ".processed" ≠ p.withSuffix ".meta" :=
    FPath.ne_of_suffix (show (".processed" : String) ≠ ".meta" by decide)
  have n7 : outPath p ≠ p.withSuffix ".meta" := FPath.ne_of_suffix hx1
  have n8 : p.withSuffix ".meta" ≠ outPath p := n7.symm
  have n9 : outPath p ≠ p.withSuffix ".processed" := FPath.ne_of_suffix hx2
  have n10 : p.withSuffix ".processed" ≠ outPath p := n9.symm
  have n11 : outPath (p.withSuffix ".processed") ≠ p.withSuffix ".meta" :=
    FPath.ne_of_suffix (show (".processed" : String) ≠ ".meta" by decide)
  have n12 : p.withSuffix ".meta" ≠ outPath (p.withSuffix ".processed") := n11.symm
  have n13 : outPath p ≠ outPath (p.withSuffix ".processed") := FPath.ne_of_suffix hx2
  have n14 : outPath (p.withSuffix ".processed") ≠ outPath p := n13.symm
  rcases hmk : o.mkdirOk with _ | _ <;>
  rcases hr1 : o.renameOrigOk with _ | _ <;>
  rcases hr2 : o.renameProcOk with _ | _ <;>
  rcases hu : o.unlinkOk with _ | _ <;>
  rcases hud : o.updCompletedOk with _ | _ <;>
  rcases hue : o.updFailedMoveOk with _ | _ <;>
  simp [FileProcessor.process_file, _touch, FileProcessor.process_file_body,
    FileProcessor._create_meta_file, FileProcessor._read_file, FileProcessor._write_file,
    FileProcessor._update_meta_file, FileProcessor._move_to_processed,
    FileProcessor.renameStep, truthyMsg, fsGet_fsSet_self, fsGet_fsSet_ne,
    fsGet_fsErase_self, fsGet_fsErase_ne, htOk, hcOk, hrOk, hwOk, hmk, hr1, hr2, hu,
    hud, hue, hread, n1, n2, n3, n4, n5, n6, n7, n8, n9, n10, n11, n12, n13, n14]

/-- C4 witness: the all-success run on `input/a.txt` containing `"hello"`
writes exactly `a.processed` with content `"HELLO"`. -/
theorem processed_write_is_uppercase_witness :
    (FileProcessor.process_file allOk stA pA).2.writes =
      stA.writes ++ [(pA.withSuffix ".processed", pyUpper "hello")] ∧
    pyUpper "hello" = "HELLO" :=
  ⟨processed_write_is_uppercase allOk stA pA "hello" (by decide) (by decide) rfl rfl rfl rfl
    (by decide), rfl⟩

/-- Claim C6 counterexample: in a run where the source read fails and the
rewrite inside the subsequent `failed` metadata update also fails (silently
swallowed, per lines 104-118), the Metadata Record is never transitioned to
`failed`: it remains at status `processing` with no `error_message`, even
though the task has failed and stopped. -/
theorem read_failure_with_update_failure_keeps_processing :
    (FileProcessor.process_file oReadUpdFail stA pA).1 = false ∧
    (FileProcessor.process_file oReadUpdFail stA pA).2.trace = ["processing"] ∧
    fsGet (FileProcessor.process_file oReadUpdFail stA pA).2.fs (pA.withSuffix ".meta") =
      some (.meta ⟨"processing", 0, "a.txt", none⟩) :=
  ⟨by decide, by decide, by decide⟩

/-- Claim C6 (amended): when the source file cannot be read, processing
always stops — the call returns failure, no content is ever written (no
transform output, no processed file), every path other than the touched
source and its record is untouched (no relocation), and the source file is
still present. The Metadata Record is transitioned to `failed` with the
read-failure message as `error_message` exactly when the rewrite inside that
update succeeds; when that rewrite itself fails (silently swallowed), the
record remains at `processing`. -/
theorem read_failure_marks_failed_and_stops (o : Oracle) (st0 : St) (p : FPath)
    (hx1 : p.suffix ≠ ".meta")
    (htOk : o.touchOk = true) (hcOk : o.createOk = true) (hrOk : o.readOk = false)
    (ht : st0.trace = []) :
    (FileProcessor.process_file o st0 p).1 = false ∧
    (FileProcessor.process_file o st0 p).2.writes = st0.writes ∧
    (∀ q : FPath, q ≠ p → q ≠ p.withSuffix ".meta" →
      fsGet (FileProcessor.process_file o st0 p).2.fs q = fsGet st0.fs q) ∧
    (∃ e : Entry, fsGet (FileProcessor.process_file o st0 p).2.fs p = some e) ∧
    (o.updFailedReadOk = true →
      (FileProcessor.process_file o st0 p).2.trace = ["processing", "failed"] ∧
      (∃ lu : Nat, fsGet (FileProcessor.process_file o st0 p).2.fs (p.withSuffix ".meta") =
        some (.meta ⟨"failed", lu, p.name, some "Could not read file"⟩))) ∧
    (o.updFailedReadOk = false →
      (FileProcessor.process_file o st0 p).2.trace = ["processing"] ∧
      (∃ lu : Nat, fsGet (FileProcessor.process_file o st0 p).2.fs (p.withSuffix ".meta") =
        some (.meta ⟨"processing", lu, p.name, none⟩))) := by
  have n1 : p ≠ p.withSuffix ".meta" := FPath.ne_of_suffix hx1
  have n2 : p.withSuffix ".meta" ≠ p := n1.symm
  have hne1 : ("Could not read file" : String) ≠ "" := by decide
  rcases hb : o.updFailedReadOk with _ | _ <;> rcases hg : fsGet st0.fs p with _ | e0
  · refine ⟨?_, ?_, fun q hqp hqm => ?_, ?_, fun hu => ?_, fun hu => ?_⟩
    · simp [FileProcessor.process_file, _touch, FileProcessor.process_file_body,
        FileProcessor._create_meta_file, FileProcessor._read_file,
        FileProcessor._update_meta_file, truthyMsg, fsGet_fsSet_self, fsGet_fsSet_ne,
        htOk, hcOk, hrOk, hg, hb, ht, hne1, n1, n2]
    · simp [FileProcessor.process_file, _touch, FileProcessor.process_file_body,
        FileProcessor._create_meta_file, FileProcessor._read_file,
        FileProcessor._update_meta_file, truthyMsg, fsGet_fsSet_self, fsGet_fsSet_ne,
        htOk, hcOk, hrOk, hg, hb, ht, hne1, n1, n2]
    · simp [FileProcessor.process_file, _touch, FileProcessor.process_file_body,
        FileProcessor._create_meta_file, FileProcessor._read_file,
        FileProcessor._update_meta_file, truthyMsg, fsGet_fsSet_self, fsGet_fsSet_ne,
        htOk, hcOk, hrOk, hg, hb, ht, hne1, n1, n2, hqp, hqm]
    · simp [FileProcessor.process_file, _touch, FileProcessor.process_file_body,
        FileProcessor._create_meta_file, FileProcessor._read_file,
        FileProcessor._update_meta_file, truthyMsg, fsGet_fsSet_self, fsGet_fsSet_ne,
        htOk, hcOk, hrOk, hg, hb, ht, hne1, n1, n2]
    · exact absurd hu (by decide)
    · exact ⟨by simp [FileProcessor.process_file, _touch, FileProcessor.process_file_body,
        FileProcessor._create_meta_file, FileProcessor._read_file,
        FileProcessor._update_meta_file, truthyMsg, fsGet_fsSet_self, fsGet_fsSet_ne,
        htOk, hcOk, hrOk, hg, hb, ht, hne1, n1, n2],
        ⟨st0.clock, by simp [FileProcessor.process_file, _touch, FileProcessor.process_file_body,
        FileProcessor._create_meta_file, FileProcessor._read_file,
        FileProcessor._update_meta_file, truthyMsg, fsGet_fsSet_self, fsGet_fsSet_ne,
        htOk, hcOk, hrOk, hg, hb, ht, hne1, n1, n2]⟩⟩
  · refine ⟨?_, ?_, fun q hqp hqm => ?_, ?_, fun hu => ?_, fun hu => ?_⟩
    · simp [FileProcessor.process_file, _touch, FileProcessor.process_file_body,
        FileProcessor._create_meta_file, FileProcessor._read_file,
        FileProcessor._update_meta_file, truthyMsg, fsGet_fsSet_self, fsGet_fsSet_ne,
        htOk, hcOk, hrOk, hg, hb, ht, hne1, n1, n2]
    · simp [FileProcessor.process_file, _touch, FileProcessor.process_file_body,
        FileProcessor._create_meta_file, FileProcessor._read_file,
        FileProcessor._update_meta_file, truthyMsg, fsGet_fsSet_self, fsGet_fsSet_ne,
        htOk, hcOk, hrOk, hg, hb, ht, hne1, n1, n2]
    · simp [FileProcessor.process_file, _touch, FileProcessor.process_file_body,
        FileProcessor._create_meta_file, FileProcessor._read_file,
        FileProcessor._update_meta_file, truthyMsg, fsGet_fsSet_self, fsGet_fsSet_ne,
        htOk, hcOk, hrOk, hg, hb, ht, hne1, n1, n2, hqp, hqm]
    · simp [FileProcessor.process_file, _touch, FileProcessor.process_file_body,
        FileProcessor._create_meta_file, FileProcessor._read_file,
        FileProcessor._update_meta_file, truthyMsg, fsGet_fsSet_self, fsGet_fsSet_ne,
        htOk, hcOk, hrOk, hg, hb, ht, hne1, n1, n2]
    · exact absurd hu (by decide)
    · exact ⟨by simp [FileProcessor.process_file, _touch, FileProcessor.process_file_body,
        FileProcessor._create_meta_file, FileProcessor._read_file,
        FileProcessor._update_meta_file, truthyMsg, fsGet_fsSet_self, fsGet_fsSet_ne,
        htOk, hcOk, hrOk, hg, hb, ht, hne1, n1, n2],
        ⟨st0.clock, by simp [FileProcessor.process_file, _touch, FileProcessor.process_file_body,
        FileProcessor._create_meta_file, FileProcessor._read_file,
        FileProcessor._update_meta_file, truthyMsg, fsGet_fsSet_self, fsGet_fsSet_ne,
        htOk, hcOk, hrOk, hg, hb, ht, hne1, n1, n2]⟩⟩
  · refine ⟨?_, ?_, fun q hqp hqm => ?_, ?_, fun hu => ?_, fun hu => ?_⟩
    · simp [FileProcessor.process_file, _touch, FileProcessor.process_file_body,
        FileProcessor._create_meta_file, FileProcessor._read_file,
        FileProcessor._update_meta_file, truthyMsg, fsGet_fsSet_self, fsGet_fsSet_ne,
        htOk, hcOk, hrOk, hg, hb, ht, hne1, n1, n2]
    · simp [FileProcessor.process_file, _touch, FileProcessor.process_file_body,
        FileProcessor._create_meta_file, FileProcessor._read_file,
        FileProcessor._update_meta_file, truthyMsg, fsGet_fsSet_self, fsGet_fsSet_ne,
        htOk, hcOk, hrOk, hg, hb, ht, hne1, n1, n2]
    · simp [FileProcessor.process_file, _touch, FileProcessor.process_file_body,
        FileProcessor._create_meta_file, FileProcessor._read_file,
        FileProcessor._update_meta_file, truthyMsg, fsGet_fsSet_self, fsGet_fsSet_ne,
        htOk, hcOk, hrOk, hg, hb, ht, hne1, n1, n2, hqp, hqm]
    · simp [FileProcessor.process_file, _touch, FileProcessor.process_file_body,
        FileProcessor._create_meta_file, FileProcessor._read_file,
        FileProcessor._update_meta_file, truthyMsg, fsGet_fsSet_self, fsGet_fsSet_ne,
        htOk, hcOk, hrOk, hg, hb, ht, hne1, n1, n2]
    · exact ⟨by simp [FileProcessor.process_file, _touch, FileProcessor.process_file_body,
        FileProcessor._create_meta_file, FileProcessor._read_file,
        FileProcessor._update_meta_file, truthyMsg, fsGet_fsSet_self, fsGet_fsSet_ne,
        htOk, hcOk, hrOk, hg, hb, ht, hne1, n1, n2],
        ⟨st0.clock + 1, by simp [FileProcessor.process_file, _touch, FileProcessor.process_file_body,
        FileProcessor._create_meta_file, FileProcessor._read_file,
        FileProcessor._update_meta_file, truthyMsg, fsGet_fsSet_self, fsGet_fsSet_ne,
        htOk, hcOk, hrOk, hg, hb, ht, hne1, n1, n2]⟩⟩
    · exact absurd hu (by decide)
  · refine ⟨?_, ?_, fun q hqp hqm => ?_, ?_, fun hu => ?_, fun hu => ?_⟩
    · simp [FileProcessor.process_file, _touch, FileProcessor.process_file_body,
        FileProcessor._create_meta_file, FileProcessor._read_file,
        FileProcessor._update_meta_file, truthyMsg, fsGet_fsSet_self, fsGet_fsSet_ne,
        htOk, hcOk, hrOk, hg, hb, ht, hne1, n1, n2]
    · simp [FileProcessor.process_file, _touch, FileProcessor.process_file_body,
        FileProcessor._create_meta_file, FileProcessor._read_file,
        FileProcessor._update_meta_file, truthyMsg, fsGet_fsSet_self, fsGet_fsSet_ne,
        htOk, hcOk, hrOk, hg, hb, ht, hne1, n1, n2]
    · simp [FileProcessor.process_file, _touch, FileProcessor.process_file_body,
        FileProcessor._create_meta_file, FileProcessor._read_file,
        FileProcessor._update_meta_file, truthyMsg, fsGet_fsSet_self, fsGet_fsSet_ne,
        htOk, hcOk, hrOk, hg, hb, ht, hne1, n1, n2, hqp, hqm]
    · simp [FileProcessor.process_file, _touch, FileProcessor.process_file_body,
        FileProcessor._create_meta_file, FileProcessor._read_file,
        FileProcessor._update_meta_file, truthyMsg, fsGet_fsSet_self, fsGet_fsSet_ne,
        htOk, hcOk, hrOk, hg, hb, ht, hne1, n1, n2]
    · exact ⟨by simp [FileProcessor.process_file, _touch, FileProcessor.process_file_body,
        FileProcessor._create_meta_file, FileProcessor._read_file,
        FileProcessor._update_meta_file, truthyMsg, fsGet_fsSet_self, fsGet_fsSet_ne,
        htOk, hcOk, hrOk, hg, hb, ht, hne1, n1, n2],
        ⟨st0.clock + 1, by simp [FileProcessor.process_file, _touch, FileProcessor.process_file_body,
        FileProcessor._create_meta_file, FileProcessor._read_file,
        FileProcessor._update_meta_file, truthyMsg, fsGet_fsSet_self, fsGet_fsSet_ne,
        htOk, hcOk, hrOk, hg, hb, ht, hne1, n1, n2]⟩⟩
    · exact absurd hu (by decide)

/-- Claim C6 witness: the run on `input/a.txt` whose read fails (with the
failed-update rewrite succeeding) satisfies the hypotheses, and the
read-failure behaviour holds for it. -/
theorem read_failure_marks_failed_and_stops_witness :
    (FileProcessor.process_file oReadFail stA pA).1 = false ∧
    (FileProcessor.process_file oReadFail stA pA).2.writes = stA.writes ∧
    (∀ q : FPath, q ≠ pA → q ≠ pA.withSuffix ".meta" →
      fsGet (FileProcessor.process_file oReadFail stA pA).2.fs q = fsGet stA.fs q) ∧
    (∃ e : Entry, fsGet (FileProcessor.process_file oReadFail stA pA).2.fs pA = some e) ∧
    (oReadFail.updFailedReadOk = true →
      (FileProcessor.process_file oReadFail stA pA).2.trace = ["processing", "failed"] ∧
      (∃ lu : Nat, fsGet (FileProcessor.process_file oReadFail stA pA).2.fs
        (pA.withSuffix ".meta") =
        some (.meta ⟨"failed", lu, pA.name, some "Could not read file"⟩))) ∧
    (oReadFail.updFailedReadOk = false →
      (FileProcessor.process_file oReadFail stA pA).2.trace = ["processing"] ∧
      (∃ lu : Nat, fsGet (FileProcessor.process_file oReadFail stA pA).2.fs
        (pA.withSuffix ".meta") =
        some (.meta ⟨"processing", lu, pA.name, none⟩))) :=
  read_failure_marks_failed_and_stops oReadFail stA pA (by decide) rfl rfl rfl rfl

/-- Claim C10: `process_file` touches the task path before creating the Metadata
Record, so on a path with no existing file the run does not fail at the read
step: it reads the empty content the touch created, writes an empty processed
file, and completes with both files relocated to the output directory and the
Metadata Record removed — provided no I/O operation fails. -/
theorem missing_file_touched_and_completes (e : String) (st0 : St) (p : FPath)
    (hx1 : p.suffix ≠ ".meta") (hx2 : p.suffix ≠ ".processed")
    (hgp : fsGet st0.fs p = none) :
    (FileProcessor.process_file ⟨true, true, true, true, true, true, true, true, true, true, true, true,
      true, e⟩
      st0 p).1 = true ∧
    fsGet (FileProcessor.process_file ⟨true, true, true, true, true, true, true, true, true, true, true, true,
      true, e⟩
      st0 p).2.fs (outPath p) = some (.plain "") ∧
    fsGet (FileProcessor.process_file ⟨true, true, true, true, true, true, true, true, true, true, true, true,
      true, e⟩
      st0 p).2.fs (outPath (p.withSuffix ".processed")) = some (.plain "") ∧
    fsGet (FileProcessor.process_file ⟨true, true, true, true, true, true, true, true, true, true, true, true,
      true, e⟩
      st0 p).2.fs (p.withSuffix ".meta") = none := by
  have n1 : p ≠ p.withSuffix ".meta" := FPath.ne_of_suffix hx1
  have n2 : p.withSuffix ".meta" ≠ p := n1.symm
  have n3 : p ≠ p.withSuffix ".processed" := FPath.ne_of_suffix hx2
  have n4 : p.withSuffix ".processed" ≠ p := n3.symm
  have n5 : p.withSuffix ".meta" ≠ p.withSuffix ".processed" :=
    FPath.ne_of_suffix (show (".meta" : String) ≠ ".processed" by decide)
  have n6 : p.withSuffix ".processed" ≠ p.withSuffix ".meta" :=
    FPath.ne_of_suffix (show (".processed" : String) ≠ ".meta" by decide)
  have n7 : outPath p ≠ p.withSuffix ".meta" := FPath.ne_of_suffix hx1
  have n8 : p.withSuffix ".meta" ≠ outPath p := n7.symm
  have n9 : outPath p ≠ p.withSuffix ".processed" := FPath.ne_of_suffix hx2
  have n10 : p.withSuffix ".processed" ≠ outPath p := n9.symm
  have n11 : outPath (p.withSuffix ".processed") ≠ p.withSuffix ".meta" :=
    FPath.ne_of_suffix (show (".processed" : String) ≠ ".meta" by decide)
  have n12 : p.withSuffix ".meta" ≠ outPath (p.withSuffix ".processed") := n11.symm
  have n13 : outPath p ≠ outPath (p.withSuffix ".processed") := FPath.ne_of_suffix hx2
  have n14 : outPath (p.withSuffix ".processed") ≠ outPath p := n13.symm
  have hU : pyUpper "" = "" := rfl
  refine ⟨?_, ?_, ?_, ?_⟩ <;>
    simp [FileProcessor.process_file, _touch, FileProcessor.process_file_body,
      FileProcessor._create_meta_file, FileProcessor._read_file, FileProcessor._write_file,
      FileProcessor._update_meta_file, FileProcessor._move_to_processed,
      FileProcessor.renameStep, truthyMsg, fsGet_fsSet_self, fsGet_fsSet_ne,
      fsGet_fsErase_self, fsGet_fsErase_ne, hgp, hU,
      n1, n2, n3, n4, n5, n6, n7, n8, n9, n10, n11, n12, n13, n14]

/-- Claim C10 witness: processing the absent path `input/a.txt` over an empty
filesystem with all I/O succeeding completes with empty relocated files. -/
theorem missing_file_touched_and_completes_witness :
    fsGet stEmpty.fs pA = none ∧
    ((FileProcessor.process_file ⟨true, true, true, true, true, true, true, true, true, true, true, true,
      true, "boom"⟩ stEmpty pA).1 = true ∧
    fsGet (FileProcessor.process_file ⟨true, true, true, true, true, true, true, true, true, true, true, true,
      true, "boom"⟩ stEmpty pA).2.fs (outPath pA) = some (.plain "") ∧
    fsGet (FileProcessor.process_file ⟨true, true, true, true, true, true, true, true, true, true, true, true,
      true, "boom"⟩ stEmpty pA).2.fs (outPath (pA.withSuffix ".processed")) = some (.plain "") ∧
    fsGet (FileProcessor.process_file ⟨true, true, true, true, true, true, true, true, true, true, true, true,
      true, "boom"⟩ stEmpty pA).2.fs (pA.withSuffix ".meta") = none) :=
  ⟨rfl, missing_file_touched_and_completes "boom" stEmpty pA (by decide) (by decide) rfl⟩
